import Mathlib

/-!
Verification of the stock-data-analyser-chatbot query layer.

The development shallowly embeds the data-access functions of
src/lib/salesAnalysisTools.ts, src/lib/invoiceTools.ts, src/lib/userTools.ts
and the chat route configuration of src/app/api/chat/route.ts.

Conventions of the embedding:
- SQL numeric columns are rational numbers; nullable columns are Option.
- DATE columns are YYYY-MM-DD strings; SQL comparisons on them are
  lexicographic, which coincides with date order for this format, and a
  comparison against NULL excludes the row.
- Each tool takes the database value, its parameters, and (for user-scoped
  tools) the resolved session as explicit arguments; clock-derived cutoff
  dates are passed in as parameters.
- Tools that touch storage also return the number of reads they issued
  against the record sets, so fail-closed behaviour is provable.
- Date parameters stand for the output of normalizeDate: an unparseable
  input is already represented as the absent filter.
-/

namespace StockBot

/-- Lexicographic comparison of character lists; models SQL string and
    YYYY-MM-DD date comparison. -/
def strLeb : List Char → List Char → Bool
  | [], _ => true
  | _ :: _, [] => false
  | a :: as, b :: bs => if a = b then strLeb as bs else decide (a < b)

/-- SQL comparison of two date strings. -/
def dateLeb (a b : String) : Bool := strLeb a.data b.data

/-- Helper for jsTrim: drop leading whitespace characters. -/
def dropWs : List Char → List Char
  | [] => []
  | c :: cs => if c.isWhitespace then dropWs cs else c :: cs

/-- Model of the JavaScript String.prototype.trim used on billing documents. -/
def jsTrim (s : String) : String := ⟨(dropWs (dropWs s.data).reverse).reverse⟩

/-- Model of the JavaScript String.prototype.toLowerCase used by the city filter. -/
def strLower (s : String) : String := ⟨s.data.map Char.toLower⟩

/-- Insertion step for the deterministic model of ORDER BY. -/
def insertSorted (le : α → α → Bool) (a : α) : List α → List α
  | [] => [a]
  | b :: bs => if le a b then a :: b :: bs else b :: insertSorted le a bs

/-- Deterministic sort modelling SQL ORDER BY and the JavaScript array sort. -/
def sortBy (le : α → α → Bool) (l : List α) : List α := l.foldr (insertSorted le) []

/-- Distinct keys of a GROUP BY, in order of first appearance. -/
def dedupFirst [DecidableEq α] (l : List α) : List α := go l []
where
  go : List α → List α → List α
    | [], _ => []
    | a :: as, seen => if a ∈ seen then go as seen else a :: go as (a :: seen)

/-- Model of coalesce(sum(column), 0): SQL sum skips NULL values. -/
def qsumBy (f : α → Option ℚ) (l : List α) : ℚ :=
  l.foldl (fun acc r => acc + (f r).getD 0) 0

/-- Model of avg(column): SQL avg skips NULLs and is NULL on an empty set. -/
def qavgBy (f : α → Option ℚ) (l : List α) : Option ℚ :=
  let vs := l.filterMap f
  if vs.isEmpty then none else some (vs.sum / vs.length)

/-- Model of min(dateColumn). -/
def minDateBy (f : α → Option String) (l : List α) : Option String :=
  (l.filterMap f).foldl
    (fun acc d => match acc with
      | none => some d
      | some m => if dateLeb d m then some d else some m) none

/-- Model of max(dateColumn). -/
def maxDateBy (f : α → Option String) (l : List α) : Option String :=
  (l.filterMap f).foldl
    (fun acc d => match acc with
      | none => some d
      | some m => if dateLeb m d then some d else some m) none

/-- Model of the JavaScript idiom value || dflt on an optional integer:
    an absent or zero value falls back to the default, anything else,
    including a negative value, passes through. -/
def jsOrInt (v : Option Int) (dflt : Int) : Int :=
  match v with
  | none => dflt
  | some x => if x = 0 then dflt else x

/-- Model of the JavaScript idiom value || dflt on an optional rational. -/
def jsOrQ (v : Option ℚ) (dflt : ℚ) : ℚ :=
  match v with
  | none => dflt
  | some x => if x = 0 then dflt else x

/-- Model of the idiom params.limit && params.limit > 0 ? Math.min(params.limit, cap) : dflt. -/
def posCap (v : Option Int) (cap dflt : Int) : Int :=
  match v with
  | none => dflt
  | some x => if 0 < x then min x cap else dflt

/-- Model of the idiom params.offset && params.offset > 0 ? params.offset : 0. -/
def posOr0 (v : Option Int) : Int :=
  match v with
  | none => 0
  | some x => if 0 < x then x else 0

/-- Embeds getSafePagination of invoiceTools.ts and userTools.ts:
    default limit 50 capped at 200, default offset 0. -/
def getSafePagination (limit offset : Option Int) : Int × Int :=
  (posCap limit 200 50, posOr0 offset)

/-- LIMIT and OFFSET applied to an ordered row list. -/
def applyPage (rows : List α) (limit offset : Int) : List α :=
  (rows.drop offset.toNat).take limit.toNat

/-- Model of Number.prototype.toFixed(1) read back with parseFloat:
    rounding to one decimal, ties toward positive infinity. -/
def toFixed1 (x : ℚ) : ℚ := (⌊x * 10 + 1/2⌋ : ℚ) / 10

/-- Model of Number.prototype.toFixed(2) read back with parseFloat:
    rounding to two decimals, ties toward positive infinity. -/
def toFixed2 (x : ℚ) : ℚ := (⌊x * 100 + 1/2⌋ : ℚ) / 100

/-- Invoice line row: the columns of the drizzle invoice table used by the
    embedded tools. Every column except the surrogate id is nullable. -/
structure InvoiceRow where
  id : Nat
  billingDocument : Option String
  item : Option Int
  invoiceDate : Option String
  billToParty : Option String
  billToPartyCode : Option String
  billToPartyCity : Option String
  material : Option String
  regionZone : Option String
  ainocularDesign : Option String
  ainocularDesignDescription : Option String
  ainocularShade : Option String
  fabricType : Option String
  basicPrice : Option ℚ
  billedQuantity : Option ℚ
  netAmountInr : Option ℚ
  grossAmount : Option ℚ
  discountAmount : Option ℚ
  taxableAmount : Option ℚ
  totalGstAmount : Option ℚ
  tcsAmount : Option ℚ
deriving DecidableEq

/-- Stock item row: the columns of the drizzle stock table used by the
    embedded tools; material is the non-null primary key. -/
structure StockRow where
  material : String
  stockInMeters : Option ℚ
  basicPrice : Option ℚ
  description2ForTheMaterialGroup : Option String
  fabricType : Option String
  endUse : Option String
  colourFamily : Option String
  patternName : Option String
  loomType : Option String
  dyedType : Option String
  ainocularDesign : Option String
deriving DecidableEq

/-- The two record sets the tools read. -/
structure DB where
  invoices : List InvoiceRow
  stocks : List StockRow
deriving DecidableEq

/-- SQL equality of a nullable text column against a value: NULL never matches. -/
def sqlEqS (col : Option String) (v : String) : Bool :=
  match col with
  | some c => c = v
  | none => false

/-- SQL gte on a nullable date column: NULL never matches. -/
def sqlGeD (col : Option String) (d : String) : Bool :=
  match col with
  | some c => dateLeb d c
  | none => false

/-- SQL lte on a nullable date column: NULL never matches. -/
def sqlLeD (col : Option String) (d : String) : Bool :=
  match col with
  | some c => dateLeb c d
  | none => false

/-- Optional date-range condition: an absent bound imposes no constraint. -/
def inDateRange (col : Option String) (fromDate toDate : Option String) : Bool :=
  (match fromDate with | some d => sqlGeD col d | none => true) &&
  (match toDate with | some d => sqlLeD col d | none => true)

/-- Descending comparator on nullable dates; NULLs first as in Postgres DESC. -/
def optDateDescLe (a b : Option String) : Bool :=
  match a, b with
  | none, _ => true
  | some _, none => false
  | some x, some y => dateLeb y x

/-- Descending comparator on rationals. -/
def qDescLe (a b : ℚ) : Bool := decide (b ≤ a)

/-- Ascending comparator on rationals. -/
def qAscLe (a b : ℚ) : Bool := decide (a ≤ b)

/-- Descending comparator on nullable rationals; NULLs first as in Postgres DESC. -/
def optQDescLe (a b : Option ℚ) : Bool :=
  match a, b with
  | none, _ => true
  | some _, none => false
  | some x, some y => decide (y ≤ x)

/-- Ascending comparator on nullable integers; NULLs last as in Postgres ASC. -/
def optIntAscLe (a b : Option Int) : Bool :=
  match a, b with
  | none, none => true
  | none, some _ => false
  | some _, none => true
  | some x, some y => decide (x ≤ y)

/-- Identity as issued by the session provider. -/
structure SessionUser where
  id : String
  name : String
  email : String
deriving DecidableEq

/-- Embeds the AuthenticatedUser type of userTools.ts: the display name is
    reused as the billToPartyCode ownership key. -/
structure AuthenticatedUser where
  id : String
  name : String
  email : String
  billToPartyCode : String
deriving DecidableEq

/-- Embeds the AuthResult union of userTools.ts. -/
inductive AuthResult where
  | authenticated (user : AuthenticatedUser)
  | unauthenticated (error : String)
deriving DecidableEq

/-- Embeds getAuthenticatedUser of userTools.ts; the ambient session is an
    explicit argument, absent or invalid sessions resolve to the
    unauthenticated state. -/
def getAuthenticatedUser (session : Option SessionUser) : AuthResult :=
  match session with
  | none =>
    .unauthenticated "You must be logged in to use this feature. Please sign in first."
  | some u => .authenticated ⟨u.id, u.name, u.email, u.name⟩

/-- User echo block attached to successful user-scoped responses. -/
structure UserEcho where
  name : String
  billToPartyCode : String
deriving DecidableEq

/-- Result of getMyInvoiceHistory and getMyRecentInvoices. -/
structure MyInvoicesResult where
  success : Bool
  error : Option String
  userEcho : Option UserEcho
  invoiceCount : Option Nat
  data : Option (List InvoiceRow)
deriving DecidableEq

/-- Embeds getMyInvoiceHistory of userTools.ts; the second component counts
    reads issued against the record sets. -/
def getMyInvoiceHistory (session : Option SessionUser)
    (fromDate toDate : Option String) (limit offset : Option Int)
    (db : DB) : MyInvoicesResult × Nat :=
  match getAuthenticatedUser session with
  | .unauthenticated e => (⟨false, some e, none, none, none⟩, 0)
  | .authenticated user =>
    let page := getSafePagination limit offset
    let pred := fun (r : InvoiceRow) =>
      sqlEqS r.billToPartyCode user.billToPartyCode &&
      inDateRange r.invoiceDate fromDate toDate
    let ordered := sortBy (fun a b => optDateDescLe a.invoiceDate b.invoiceDate)
      (db.invoices.filter pred)
    let rows := applyPage ordered page.1 page.2
    (⟨true, none, some ⟨user.name, user.name⟩, some rows.length, some rows⟩, 1)

/-- Embeds getMyRecentInvoices of userTools.ts: limit defaults to 10,
    capped at 50. -/
def getMyRecentInvoices (session : Option SessionUser)
    (limit : Option Int) (db : DB) : MyInvoicesResult × Nat :=
  match getAuthenticatedUser session with
  | .unauthenticated e => (⟨false, some e, none, none, none⟩, 0)
  | .authenticated user =>
    let lim := posCap limit 50 10
    let ordered := sortBy (fun a b => optDateDescLe a.invoiceDate b.invoiceDate)
      (db.invoices.filter (fun r => sqlEqS r.billToPartyCode user.billToPartyCode))
    let rows := ordered.take lim.toNat
    (⟨true, none, some ⟨user.name, user.billToPartyCode⟩, some rows.length, some rows⟩, 1)

/-- Aggregate row of getMyInvoiceSummary. -/
structure AmountSummaryRow where
  totalNetAmountInr : ℚ
  totalGrossAmount : ℚ
  totalDiscountAmount : ℚ
  totalTaxableAmount : ℚ
  totalGstAmount : ℚ
  totalTcsAmount : ℚ
  invoiceCount : Nat
deriving DecidableEq

/-- Aggregates the amount columns of a row set as getMyInvoiceSummary selects them. -/
def amountSummaryOf (rows : List InvoiceRow) : AmountSummaryRow :=
  ⟨qsumBy (·.netAmountInr) rows, qsumBy (·.grossAmount) rows,
   qsumBy (·.discountAmount) rows, qsumBy (·.taxableAmount) rows,
   qsumBy (·.totalGstAmount) rows, qsumBy (·.tcsAmount) rows, rows.length⟩

/-- Result of getMyInvoiceSummary. -/
structure MySummaryResult where
  success : Bool
  error : Option String
  userEcho : Option UserEcho
  data : Option AmountSummaryRow
deriving DecidableEq

/-- Embeds getMyInvoiceSummary of userTools.ts. -/
def getMyInvoiceSummary (session : Option SessionUser)
    (fromDate toDate : Option String) (db : DB) : MySummaryResult × Nat :=
  match getAuthenticatedUser session with
  | .unauthenticated e => (⟨false, some e, none, none⟩, 0)
  | .authenticated user =>
    let pred := fun (r : InvoiceRow) =>
      sqlEqS r.billToPartyCode user.billToPartyCode &&
      inDateRange r.invoiceDate fromDate toDate
    (⟨true, none, some ⟨user.name, user.billToPartyCode⟩,
      some (amountSummaryOf (db.invoices.filter pred))⟩, 1)

/-- Result of getMyInvoicePdf; the record fields echo the fetched invoice. -/
structure MyPdfResult where
  success : Bool
  error : Option String
  billingDocument : Option String
  billToPartyCode : Option String
  invoiceDate : Option String
  netAmountInr : Option ℚ
  pdfUrl : Option String
  message : Option String
deriving DecidableEq

/-- S3 bucket base URL for invoice PDFs, from userTools.ts and invoiceTools.ts. -/
def INVOICE_PDF_BUCKET_URL : String :=
  "https://ainoc-chatbot-files-bucket.s3.us-east-2.amazonaws.com"

/-- Packaging of the getMyInvoicePdf lookup: an empty hit list is a typed
    not-found failure, otherwise the first record is echoed together with
    the derived bucket URL. -/
def myPdfResultOf (billingDocument : String) (hits : List InvoiceRow) :
    MyPdfResult × Nat :=
  match hits with
  | [] =>
    (⟨false,
      some ("No invoice found with billing document ID: " ++ billingDocument ++
        " for your account."), none, none, none, none, none, none⟩, 1)
  | r :: _ =>
    (⟨true, none, r.billingDocument, r.billToPartyCode, r.invoiceDate,
      r.netAmountInr,
      some (INVOICE_PDF_BUCKET_URL ++ "/" ++ jsTrim billingDocument ++ ".pdf"),
      some ("PDF available for your invoice " ++ billingDocument ++
        ". Click the link to download.")⟩, 1)

/-- Embeds getMyInvoicePdf of userTools.ts: the query requires both the
    trimmed billing document and the ownership key to match. -/
def getMyInvoicePdf (session : Option SessionUser)
    (billingDocument : String) (db : DB) : MyPdfResult × Nat :=
  match getAuthenticatedUser session with
  | .unauthenticated e => (⟨false, some e, none, none, none, none, none, none⟩, 0)
  | .authenticated user =>
    if jsTrim billingDocument = "" then
      (⟨false, some "Billing document ID is required.", none, none, none, none,
        none, none⟩, 0)
    else
      myPdfResultOf billingDocument ((db.invoices.filter (fun r =>
        sqlEqS r.billingDocument (jsTrim billingDocument) &&
        sqlEqS r.billToPartyCode user.billToPartyCode)).take 1)

/-- Data of getMyInvoiceDetails: a lone matching line is unwrapped. -/
inductive DetailsData where
  | one (r : InvoiceRow)
  | many (rs : List InvoiceRow)
deriving DecidableEq

/-- Rows carried by a DetailsData value. -/
def DetailsData.rows : DetailsData → List InvoiceRow
  | .one r => [r]
  | .many rs => rs

/-- Result of getMyInvoiceDetails. -/
structure MyDetailsResult where
  success : Bool
  error : Option String
  userEcho : Option UserEcho
  data : Option DetailsData
deriving DecidableEq

/-- Packaging of the getMyInvoiceDetails rows: no row is a typed not-found
    failure, a single row is unwrapped, several rows come back as a list. -/
def detailsResultOf (user : AuthenticatedUser) (billingDocument : String)
    (rows : List InvoiceRow) : MyDetailsResult × Nat :=
  match rows with
  | [] =>
    (⟨false,
      some ("No invoice found with billing document ID: " ++ billingDocument ++
        " for your account."), none, none⟩, 1)
  | [r] => (⟨true, none, some ⟨user.name, user.billToPartyCode⟩, some (.one r)⟩, 1)
  | rs => (⟨true, none, some ⟨user.name, user.billToPartyCode⟩, some (.many rs)⟩, 1)

/-- Embeds getMyInvoiceDetails of userTools.ts. -/
def getMyInvoiceDetails (session : Option SessionUser)
    (billingDocument : String) (item : Option Int) (db : DB) :
    MyDetailsResult × Nat :=
  match getAuthenticatedUser session with
  | .unauthenticated e => (⟨false, some e, none, none⟩, 0)
  | .authenticated user =>
    if jsTrim billingDocument = "" then
      (⟨false, some "Billing document ID is required.", none, none⟩, 0)
    else
      detailsResultOf user billingDocument
        (sortBy (fun a b => optIntAscLe a.item b.item)
          (db.invoices.filter (fun r =>
            sqlEqS r.billingDocument (jsTrim billingDocument) &&
            sqlEqS r.billToPartyCode user.billToPartyCode &&
            (match item with
             | some it => r.item = some it
             | none => true))))

/-- Rows carried by a details result: empty on failure. -/
def detailsRowsOf (res : MyDetailsResult) : List InvoiceRow :=
  match res.data with
  | some dd => dd.rows
  | none => []

/-- Aggregate row of getMyPurchasesByMaterial, grouped by material identity. -/
structure PurchaseGroupRow where
  material : Option String
  ainocularDesign : Option String
  ainocularDesignDescription : Option String
  fabricType : Option String
  totalQuantity : ℚ
  totalNetAmount : ℚ
  purchaseCount : Nat
deriving DecidableEq

/-- Result of getMyPurchasesByMaterial. -/
structure MyPurchasesResult where
  success : Bool
  error : Option String
  userEcho : Option UserEcho
  data : Option (List PurchaseGroupRow)
deriving DecidableEq

/-- Grouping key of getMyPurchasesByMaterial. -/
def purchaseKey (r : InvoiceRow) :
    Option String × Option String × Option String × Option String :=
  (r.material, r.ainocularDesign, r.ainocularDesignDescription, r.fabricType)

/-- Aggregation step of getMyPurchasesByMaterial over a filtered row set. -/
def purchaseGroupsOf (rows : List InvoiceRow) : List PurchaseGroupRow :=
  (dedupFirst (rows.map purchaseKey)).map (fun k =>
    let grp := rows.filter (fun r => purchaseKey r = k)
    ⟨k.1, k.2.1, k.2.2.1, k.2.2.2,
     qsumBy (·.billedQuantity) grp, qsumBy (·.netAmountInr) grp, grp.length⟩)

/-- Embeds getMyPurchasesByMaterial of userTools.ts: limit defaults to 20,
    capped at 100, ordered by total net amount descending. -/
def getMyPurchasesByMaterial (session : Option SessionUser)
    (fromDate toDate : Option String) (limit : Option Int) (db : DB) :
    MyPurchasesResult × Nat :=
  match getAuthenticatedUser session with
  | .unauthenticated e => (⟨false, some e, none, none⟩, 0)
  | .authenticated user =>
    let lim := posCap limit 100 20
    let pred := fun (r : InvoiceRow) =>
      sqlEqS r.billToPartyCode user.billToPartyCode &&
      inDateRange r.invoiceDate fromDate toDate
    let groups := purchaseGroupsOf (db.invoices.filter pred)
    let rows := (sortBy (fun a b => qDescLe a.totalNetAmount b.totalNetAmount)
      groups).take lim.toNat
    (⟨true, none, some ⟨user.name, user.billToPartyCode⟩, some rows⟩, 1)

/-- Month bucket of to_char(invoice_date, YYYY-MM). -/
def monthOf (d : String) : String := ⟨d.data.take 7⟩

/-- Aggregate row of getMyMonthlyPurchaseTrend. -/
structure MonthlyTrendRow where
  month : String
  totalNetAmount : ℚ
  totalQuantity : ℚ
  invoiceCount : Nat
deriving DecidableEq

/-- Result of getMyMonthlyPurchaseTrend. -/
structure MyTrendResult where
  success : Bool
  error : Option String
  userEcho : Option UserEcho
  monthsAnalyzed : Option Int
  data : Option (List MonthlyTrendRow)
deriving DecidableEq

/-- Embeds getMyMonthlyPurchaseTrend of userTools.ts; monthsAgoDate is the
    clock environment mapping a months-back count to the normalized start
    date the source computes from the current time. -/
def getMyMonthlyPurchaseTrend (session : Option SessionUser)
    (months : Option Int) (monthsAgoDate : Nat → String) (db : DB) :
    MyTrendResult × Nat :=
  match getAuthenticatedUser session with
  | .unauthenticated e => (⟨false, some e, none, none, none⟩, 0)
  | .authenticated user =>
    let monthsBack := posCap months 24 12
    let fromDate := monthsAgoDate monthsBack.toNat
    let owned := db.invoices.filter (fun r =>
      sqlEqS r.billToPartyCode user.billToPartyCode &&
      sqlGeD r.invoiceDate fromDate)
    let keys := dedupFirst (owned.filterMap (fun r => r.invoiceDate.map monthOf))
    let rows := (sortBy strLebStr keys).map (fun m =>
      let grp := owned.filter (fun r => r.invoiceDate.map monthOf = some m)
      MonthlyTrendRow.mk m (qsumBy (·.netAmountInr) grp)
        (qsumBy (·.billedQuantity) grp) grp.length)
    (⟨true, none, some ⟨user.name, user.billToPartyCode⟩, some monthsBack,
      some rows⟩, 1)
where
  strLebStr (a b : String) : Bool := dateLeb a b

/-- Profile statistics block of getMyProfile. -/
structure ProfileStats where
  totalInvoices : Nat
  totalSpent : ℚ
  firstInvoiceDate : Option String
  lastInvoiceDate : Option String
deriving DecidableEq

/-- Profile data of getMyProfile. -/
structure ProfileData where
  id : String
  name : String
  email : String
  billToPartyCode : String
  stats : ProfileStats
deriving DecidableEq

/-- Result of getMyProfile. -/
structure MyProfileResult where
  success : Bool
  error : Option String
  data : Option ProfileData
deriving DecidableEq

/-- Embeds getMyProfile of userTools.ts. -/
def getMyProfile (session : Option SessionUser) (db : DB) :
    MyProfileResult × Nat :=
  match getAuthenticatedUser session with
  | .unauthenticated e => (⟨false, some e, none⟩, 0)
  | .authenticated user =>
    let owned := db.invoices.filter (fun r =>
      sqlEqS r.billToPartyCode user.billToPartyCode)
    (⟨true, none, some ⟨user.id, user.name, user.email, user.billToPartyCode,
      ⟨owned.length, qsumBy (·.netAmountInr) owned,
       minDateBy (·.invoiceDate) owned, maxDateBy (·.invoiceDate) owned⟩⟩⟩, 1)

/-- GROUP BY with a single summed column, as the growth and velocity
    queries select it. -/
def groupSum [DecidableEq κ] (rows : List InvoiceRow) (key : InvoiceRow → κ)
    (val : InvoiceRow → Option ℚ) : List (κ × ℚ) :=
  (dedupFirst (rows.map key)).map (fun k =>
    (k, qsumBy val (rows.filter (fun r => key r = k))))

/-- Embeds listCustomerInvoices of invoiceTools.ts. -/
def listCustomerInvoices (billToPartyCode billToParty : Option String)
    (fromDate toDate : Option String) (limit offset : Option Int)
    (db : DB) : List InvoiceRow :=
  let page := getSafePagination limit offset
  let pred := fun (r : InvoiceRow) =>
    (match billToPartyCode with | some c => sqlEqS r.billToPartyCode c | none => true) &&
    (match billToParty with | some p => sqlEqS r.billToParty p | none => true) &&
    inDateRange r.invoiceDate fromDate toDate
  applyPage (sortBy (fun a b => optDateDescLe a.invoiceDate b.invoiceDate)
    (db.invoices.filter pred)) page.1 page.2

/-- Embeds listMaterialInvoices of invoiceTools.ts. -/
def listMaterialInvoices (material ainocularDesign ainocularShade regionZone :
    Option String) (fromDate toDate : Option String) (limit offset : Option Int)
    (db : DB) : List InvoiceRow :=
  let page := getSafePagination limit offset
  let pred := fun (r : InvoiceRow) =>
    (match material with | some m => sqlEqS r.material m | none => true) &&
    (match ainocularDesign with | some d => sqlEqS r.ainocularDesign d | none => true) &&
    (match ainocularShade with | some s => sqlEqS r.ainocularShade s | none => true) &&
    (match regionZone with | some z => sqlEqS r.regionZone z | none => true) &&
    inDateRange r.invoiceDate fromDate toDate
  applyPage (sortBy (fun a b => optDateDescLe a.invoiceDate b.invoiceDate)
    (db.invoices.filter pred)) page.1 page.2

/-- Aggregate row of getTopCustomersByRevenue. -/
structure TopCustomerRow where
  billToPartyCode : Option String
  billToParty : Option String
  totalNetAmountInr : ℚ
  totalGrossAmount : ℚ
  invoiceCount : Nat
deriving DecidableEq

/-- Embeds getTopCustomersByRevenue of invoiceTools.ts: limit defaults to 20,
    capped at 100. -/
def getTopCustomersByRevenue (fromDate toDate : Option String)
    (limit : Option Int) (db : DB) : List TopCustomerRow :=
  let lim := posCap limit 100 20
  let rows := db.invoices.filter (fun r => inDateRange r.invoiceDate fromDate toDate)
  let groups := (dedupFirst (rows.map (fun r => (r.billToPartyCode, r.billToParty)))).map
    (fun k =>
      let grp := rows.filter (fun r => (r.billToPartyCode, r.billToParty) = k)
      TopCustomerRow.mk k.1 k.2 (qsumBy (·.netAmountInr) grp)
        (qsumBy (·.grossAmount) grp) grp.length)
  (sortBy (fun a b => qDescLe a.totalNetAmountInr b.totalNetAmountInr) groups).take
    lim.toNat

/-- Aggregate row of getTopProducts. -/
structure TopProductRow where
  material : Option String
  design : Option String
  shade : Option String
  totalRevenue : ℚ
  totalQuantity : ℚ
deriving DecidableEq

/-- Embeds getTopProducts of salesAnalysisTools.ts: the limit is
    params.limit || 10 with no cap. -/
def getTopProducts (limit : Option Int) (db : DB) : List TopProductRow :=
  let lim := jsOrInt limit 10
  let groups := (dedupFirst (db.invoices.map (fun r =>
      (r.material, r.ainocularDesign, r.ainocularShade)))).map (fun k =>
    let grp := db.invoices.filter (fun r =>
      (r.material, r.ainocularDesign, r.ainocularShade) = k)
    TopProductRow.mk k.1 k.2.1 k.2.2 (qsumBy (·.netAmountInr) grp)
      (qsumBy (·.billedQuantity) grp))
  (sortBy (fun a b => qDescLe a.totalRevenue b.totalRevenue) groups).take lim.toNat

/-- Optional filter parameters of searchStock. -/
structure SearchStockParams where
  material : Option String := none
  colourFamily : Option String := none
  patternName : Option String := none
  fabricType : Option String := none
  loomType : Option String := none
  dyedType : Option String := none
  endUse : Option String := none
  design : Option String := none
  minStock : Option ℚ := none
  maxStock : Option ℚ := none
  minPrice : Option ℚ := none
  maxPrice : Option ℚ := none
deriving DecidableEq

/-- Case-insensitive substring match modelling lower(material) like the
    lowered pattern. -/
def containsLower (hay needle : String) : Bool :=
  ((strLower hay).splitOn (strLower needle)).length ≠ 1

/-- Row predicate assembled by searchStock from the present parameters. -/
def searchStockPred (p : SearchStockParams) (s : StockRow) : Bool :=
  (match p.material with | some m => containsLower s.material m | none => true) &&
  (match p.colourFamily with | some v => sqlEqS s.colourFamily v | none => true) &&
  (match p.patternName with | some v => sqlEqS s.patternName v | none => true) &&
  (match p.fabricType with | some v => sqlEqS s.fabricType v | none => true) &&
  (match p.loomType with | some v => sqlEqS s.loomType v | none => true) &&
  (match p.dyedType with | some v => sqlEqS s.dyedType v | none => true) &&
  (match p.endUse with | some v => sqlEqS s.endUse v | none => true) &&
  (match p.design with | some v => sqlEqS s.ainocularDesign v | none => true) &&
  (match p.minStock with
   | some v => match s.stockInMeters with | some q => decide (v ≤ q) | none => false
   | none => true) &&
  (match p.maxStock with
   | some v => match s.stockInMeters with | some q => decide (q ≤ v) | none => false
   | none => true) &&
  (match p.minPrice with
   | some v => match s.basicPrice with | some q => decide (v ≤ q) | none => false
   | none => true) &&
  (match p.maxPrice with
   | some v => match s.basicPrice with | some q => decide (q ≤ v) | none => false
   | none => true)

/-- Embeds searchStock of salesAnalysisTools.ts: ordered by stock quantity
    descending, limit params.limit || 50 with no cap. -/
def searchStock (p : SearchStockParams) (limit : Option Int) (db : DB) :
    List StockRow :=
  let lim := jsOrInt limit 50
  (sortBy (fun a b => optQDescLe a.stockInMeters b.stockInMeters)
    (db.stocks.filter (searchStockPred p))).take lim.toNat

/-- Result of getInvoicePdfLink of invoiceTools.ts. -/
structure PdfLinkResult where
  success : Bool
  error : Option String
  billingDocument : Option String
  billToParty : Option String
  invoiceDate : Option String
  netAmountInr : Option ℚ
  pdfUrl : Option String
  message : Option String
deriving DecidableEq

/-- Embeds getInvoicePdfLink of invoiceTools.ts; the second component counts
    reads issued against the record sets. -/
def getInvoicePdfLink (billingDocument : String) (db : DB) :
    PdfLinkResult × Nat :=
  if jsTrim billingDocument = "" then
    (⟨false, some "Billing document ID is required.", none, none, none, none,
      none, none⟩, 0)
  else
    let hits := (db.invoices.filter (fun r =>
      sqlEqS r.billingDocument (jsTrim billingDocument))).take 1
    match hits with
    | [] =>
      (⟨false,
        some ("No invoice found with billing document ID: " ++ billingDocument),
        none, none, none, none, none, none⟩, 1)
    | r :: _ =>
      (⟨true, none, r.billingDocument, r.billToParty, r.invoiceDate,
        r.netAmountInr,
        some (INVOICE_PDF_BUCKET_URL ++ "/" ++ jsTrim billingDocument ++ ".pdf"),
        some ("PDF available for invoice " ++ billingDocument ++
          ". Click the link to download.")⟩, 1)

/-- Growth value computed by getRegionGrowth and getCustomerGrowth before
    rendering: the division-by-zero special case of the source. -/
def growthValue (prevRev currRev : ℚ) : ℚ :=
  if prevRev = 0 then (if 0 < currRev then 100 else 0)
  else (currRev - prevRev) / prevRev * 100

/-- Output row of getRegionGrowth; growthPercentage carries the value the
    source renders with toFixed(2). -/
structure RegionGrowthRow where
  region : Option String
  currentRevenue : ℚ
  previousRevenue : ℚ
  growthPercentage : ℚ
deriving DecidableEq

/-- Embeds getRegionGrowth of salesAnalysisTools.ts; the three window
    boundaries the source derives from the current time are parameters. -/
def getRegionGrowth (db : DB) (today oneYearAgo twoYearsAgo : String) :
    List RegionGrowthRow :=
  let currentPeriod := groupSum
    (db.invoices.filter (fun r =>
      sqlGeD r.invoiceDate oneYearAgo && sqlLeD r.invoiceDate today))
    (·.regionZone) (·.netAmountInr)
  let previousPeriod := groupSum
    (db.invoices.filter (fun r =>
      sqlGeD r.invoiceDate twoYearsAgo && sqlLeD r.invoiceDate oneYearAgo))
    (·.regionZone) (·.netAmountInr)
  let growthData := currentPeriod.map (fun curr =>
    let prevRev := match previousPeriod.find? (fun p => p.1 = curr.1) with
      | some p => p.2
      | none => 0
    RegionGrowthRow.mk curr.1 curr.2 prevRev (toFixed2 (growthValue prevRev curr.2)))
  sortBy (fun a b => qDescLe a.growthPercentage b.growthPercentage) growthData

/-- Output row of getCustomerGrowth. -/
structure CustomerGrowthRow where
  customer : Option String
  currentRevenue : ℚ
  previousRevenue : ℚ
  growthPercentage : ℚ
  absoluteGrowth : ℚ
deriving DecidableEq

/-- Embeds getCustomerGrowth of salesAnalysisTools.ts: sorted by absolute
    growth descending, sliced to params.limit || 20. -/
def getCustomerGrowth (limit : Option Int) (db : DB)
    (today oneYearAgo twoYearsAgo : String) : List CustomerGrowthRow :=
  let currentPeriod := groupSum
    (db.invoices.filter (fun r =>
      sqlGeD r.invoiceDate oneYearAgo && sqlLeD r.invoiceDate today))
    (fun r => (r.billToPartyCode, r.billToParty)) (·.netAmountInr)
  let previousPeriod := groupSum
    (db.invoices.filter (fun r =>
      sqlGeD r.invoiceDate twoYearsAgo && sqlLeD r.invoiceDate oneYearAgo))
    (·.billToPartyCode) (·.netAmountInr)
  let growthData := currentPeriod.map (fun curr =>
    let prevRev := match previousPeriod.find? (fun p => p.1 = curr.1.1) with
      | some p => p.2
      | none => 0
    CustomerGrowthRow.mk curr.1.2 curr.2 prevRev
      (toFixed2 (growthValue prevRev curr.2)) (curr.2 - prevRev))
  (sortBy (fun a b => qDescLe a.absoluteGrowth b.absoluteGrowth) growthData).take
    (jsOrInt limit 20).toNat

/-- Analysis type parameter of getCityAnalysis, from cityAnalysisSchema. -/
inductive CityAnalysisType where
  | top_customers
  | top_products
  | avg_selling_rate
  | top_shades
deriving DecidableEq

/-- Row of the top_customers branch of getCityAnalysis. -/
structure CityCustomerRow where
  customer : Option String
  revenue : ℚ
deriving DecidableEq

/-- Row of the top_products branch of getCityAnalysis. -/
structure CityProductRow where
  product : Option String
  design : Option String
  quantity : ℚ
deriving DecidableEq

/-- Row of the top_shades branch of getCityAnalysis. -/
structure CityShadeRow where
  shade : Option String
  quantity : ℚ
deriving DecidableEq

/-- Row of the avg_selling_rate branch of getCityAnalysis. -/
structure CityAvgRateRow where
  city : Option String
  avgRate : Option ℚ
deriving DecidableEq

/-- Result union of getCityAnalysis, one shape per analysis type. -/
inductive CityAnalysisResult where
  | customers (rows : List CityCustomerRow)
  | products (rows : List CityProductRow)
  | shades (rows : List CityShadeRow)
  | avgRates (rows : List CityAvgRateRow)
deriving DecidableEq

/-- City filter of getCityAnalysis: lower(billToPartyCity) equals the
    lowered city argument; a NULL city column never matches. -/
def cityMatches (col : Option String) (city : String) : Bool :=
  match col with
  | some c => strLower c = strLower city
  | none => false

/-- Average basic price per city over the whole invoice set: the
    avg_selling_rate query of getCityAnalysis, which carries no WHERE
    clause. -/
def cityAvgRates (db : DB) : List CityAvgRateRow :=
  let rows := (dedupFirst (db.invoices.map (·.billToPartyCity))).map (fun c =>
    CityAvgRateRow.mk c (qavgBy (·.basicPrice)
      (db.invoices.filter (fun r => r.billToPartyCity = c))))
  sortBy (fun a b => optQDescLe a.avgRate b.avgRate) rows

/-- Embeds getCityAnalysis of salesAnalysisTools.ts. The first three
    branches apply the city filter; the avg_selling_rate branch groups over
    all cities and never uses the city argument. -/
def getCityAnalysis (city : String) (typ : CityAnalysisType) (db : DB) :
    CityAnalysisResult :=
  match typ with
  | .top_customers =>
    let rows := db.invoices.filter (fun r => cityMatches r.billToPartyCity city)
    .customers (((sortBy (fun a b => qDescLe a.revenue b.revenue)
      ((dedupFirst (rows.map (·.billToParty))).map (fun k =>
        CityCustomerRow.mk k (qsumBy (·.netAmountInr)
          (rows.filter (fun r => r.billToParty = k))))))).take 10)
  | .top_products =>
    let rows := db.invoices.filter (fun r => cityMatches r.billToPartyCity city)
    .products (((sortBy (fun a b => qDescLe a.quantity b.quantity)
      ((dedupFirst (rows.map (fun r => (r.material, r.ainocularDesign)))).map
        (fun k => CityProductRow.mk k.1 k.2 (qsumBy (·.billedQuantity)
          (rows.filter (fun r => (r.material, r.ainocularDesign) = k))))))).take 5)
  | .top_shades =>
    let rows := db.invoices.filter (fun r => cityMatches r.billToPartyCity city)
    .shades (((sortBy (fun a b => qDescLe a.quantity b.quantity)
      ((dedupFirst (rows.map (·.ainocularShade))).map (fun k =>
        CityShadeRow.mk k (qsumBy (·.billedQuantity)
          (rows.filter (fun r => r.ainocularShade = k))))))).take 5)
  | .avg_selling_rate => .avgRates (cityAvgRates db)

/-- Analysis type parameter of getStockSalesAnalysis, from
    stockSalesAnalysisSchema. -/
inductive StockAnalysisType where
  | high_sales_zero_stock
  | out_of_stock
  | likely_stock_out
  | low_stock
  | excess_stock
deriving DecidableEq

/-- Result row of getStockSalesAnalysis; fields unused by a branch are none,
    mirroring the per-branch object shapes of the source. -/
structure StockSalesRow where
  material : String
  stock : ℚ
  soldLast3Months : Option ℚ
  monthlyVelocity : Option ℚ
  coverageMonths : Option ℚ
deriving DecidableEq

/-- Lookup in a JavaScript Map built from an entry list: the last entry for
    a key wins. -/
def jsMapGet (stocks : List StockRow) (m : String) : Option StockRow :=
  stocks.reverse.find? (fun s => s.material = m)

/-- Sales aggregate per material over rows at or after the cutoff date:
    the velocity query shared by the two stock-vs-sales analyses. -/
def salesByMaterial (db : DB) (cutoff : String) : List (Option String × ℚ) :=
  groupSum (db.invoices.filter (fun r => sqlGeD r.invoiceDate cutoff))
    (·.material) (·.billedQuantity)

/-- Classification loop of getStockSalesAnalysis: joins the trailing sales
    aggregate with the stock set by material and keeps the rows matching the
    requested condition. Materials whose aggregate key is NULL or the empty
    string are skipped, as is any material without a stock row; the
    excess_stock type has no branch in the source loop. -/
def classifyStockSales (typ : StockAnalysisType) (stocks : List StockRow)
    (sales : List (Option String × ℚ)) : List StockSalesRow :=
  sales.filterMap (fun sale =>
    match sale.1 with
    | none => none
    | some m =>
      if m = "" then none
      else
        match jsMapGet stocks m with
        | none => none
        | some stockItem =>
          let currentStock := stockItem.stockInMeters.getD 0
          let soldLast3Months := sale.2
          let monthlyVelocity := soldLast3Months / 3
          match typ with
          | .high_sales_zero_stock =>
            if currentStock ≤ 0 ∧ 0 < soldLast3Months then
              some ⟨m, currentStock, some soldLast3Months, none, none⟩
            else none
          | .out_of_stock =>
            if currentStock ≤ 0 then some ⟨m, currentStock, none, none, none⟩
            else none
          | .likely_stock_out =>
            if 0 < currentStock ∧ currentStock < monthlyVelocity then
              some ⟨m, currentStock, none, some monthlyVelocity,
                some (currentStock / monthlyVelocity)⟩
            else none
          | .low_stock =>
            if 0 < currentStock ∧ currentStock < 100 then
              some ⟨m, currentStock, none, none, none⟩
            else none
          | .excess_stock => none)

/-- Relevance order applied by getStockSalesAnalysis before slicing. -/
def stockSalesOrder (typ : StockAnalysisType) (a b : StockSalesRow) : Bool :=
  match typ with
  | .high_sales_zero_stock =>
    qDescLe (a.soldLast3Months.getD 0) (b.soldLast3Months.getD 0)
  | .likely_stock_out =>
    qAscLe (a.coverageMonths.getD 0) (b.coverageMonths.getD 0)
  | _ => true

/-- Embeds getStockSalesAnalysis of salesAnalysisTools.ts; the trailing
    3-month cutoff the source derives from the current time is a parameter. -/
def getStockSalesAnalysis (typ : StockAnalysisType) (db : DB)
    (cutoff : String) : List StockSalesRow :=
  (sortBy (stockSalesOrder typ)
    (classifyStockSales typ db.stocks (salesByMaterial db cutoff))).take 20

/-- Result row of getExcessStockReport. monthlyVelocity carries the value
    rendered with toFixed(2); coverageMonths is none for the No sales case
    and otherwise the value rendered with toFixed(1), which is also what the
    excess filter of the source parses back and compares. -/
structure ExcessRow where
  material : String
  description : Option String
  currentStock : ℚ
  stockValue : ℚ
  soldLast6Months : ℚ
  monthlyVelocity : ℚ
  coverageMonths : Option ℚ
deriving DecidableEq

/-- Velocity lookup of getExcessStockReport: a JavaScript Map from the
    6-month sales aggregate, missing materials giving 0. -/
def velocityGet (sales : List (Option String × ℚ)) (m : String) : ℚ :=
  match sales.reverse.find? (fun p => p.1 = some m) with
  | some p => p.2
  | none => 0

/-- Mapping step of getExcessStockReport for one stock item. -/
def excessRowOf (sales : List (Option String × ℚ)) (item : StockRow) : ExcessRow :=
  let currentStock := item.stockInMeters.getD 0
  let soldLast6Months := velocityGet sales item.material
  let monthlyVelocity := soldLast6Months / 6
  ⟨item.material, item.description2ForTheMaterialGroup, currentStock,
   currentStock * (item.basicPrice.getD 0), soldLast6Months,
   toFixed2 monthlyVelocity,
   if 0 < monthlyVelocity then some (toFixed1 (currentStock / monthlyVelocity))
   else if 0 < currentStock then none
   else some 0⟩

/-- Excess filter of getExcessStockReport: positive stock and either an
    unparseable No sales coverage or a parsed coverage at or above the
    threshold. -/
def excessFlag (threshold : ℚ) (r : ExcessRow) : Bool :=
  decide (0 < r.currentStock) &&
  (match r.coverageMonths with
   | none => true
   | some c => decide (threshold ≤ c))

/-- Result of getExcessStockReport. -/
structure ExcessReport where
  coverageThreshold : ℚ
  excessItems : List ExcessRow
deriving DecidableEq

/-- Embeds getExcessStockReport of salesAnalysisTools.ts; the trailing
    6-month cutoff the source derives from the current time is a parameter.
    The threshold is params.coverageMonthsThreshold || 6 and the limit is
    params.limit || 20. -/
def getExcessStockReport (coverageMonthsThreshold : Option ℚ)
    (limit : Option Int) (db : DB) (cutoff : String) : ExcessReport :=
  let threshold := jsOrQ coverageMonthsThreshold 6
  let sales := salesByMaterial db cutoff
  let flagged := (db.stocks.map (excessRowOf sales)).filter (excessFlag threshold)
  ⟨threshold,
   (sortBy (fun a b => qDescLe a.stockValue b.stockValue) flagged).take
     (jsOrInt limit 20).toNat⟩

/-- Step budget of the chat route, the maxSteps entry of CONFIG in
    src/app/api/chat/route.ts. -/
def CONFIG_maxSteps : Nat := 7

/-- Output of one model step: free text plus the tool invocations the model
    requests. -/
structure StepOutput where
  text : String
  toolRequests : List Nat
deriving DecidableEq

/-- Modelled from the spec: the conversation orchestrator loop of section
    4.4, realized in the source by the streamText call of
    src/app/api/chat/route.ts with stopWhen stepCountIs(CONFIG.maxSteps);
    the loop body itself lives in the ai-sdk dependency, outside src/. Each
    round sends the history to the model; if the model requests no tools the
    turn finishes with that output, otherwise the tool results are appended
    to the history and the loop repeats until the step budget is spent. The
    returned list holds the outputs of the executed steps. -/
def runOrchestrator (step : List String → StepOutput) (execTool : Nat → String) :
    Nat → List String → List StepOutput
  | 0, _ => []
  | fuel + 1, hist =>
    let out := step hist
    if out.toolRequests.isEmpty then [out]
    else out :: runOrchestrator step execTool fuel
      (hist ++ [out.text] ++ out.toolRequests.map execTool)

/-- Modelled from the spec: one conversational turn of the chat route, the
    orchestrator loop run with the step budget CONFIG_maxSteps. -/
def chatTurn (step : List String → StepOutput) (execTool : Nat → String)
    (messages : List String) : List StepOutput :=
  runOrchestrator step execTool CONFIG_maxSteps messages

/-- Invoice row with every nullable column NULL, used to build test fixtures. -/
def blankInvoice : InvoiceRow :=
  { id := 0, billingDocument := none, item := none, invoiceDate := none,
    billToParty := none, billToPartyCode := none, billToPartyCity := none,
    material := none, regionZone := none, ainocularDesign := none,
    ainocularDesignDescription := none, ainocularShade := none,
    fabricType := none, basicPrice := none, billedQuantity := none,
    netAmountInr := none, grossAmount := none, discountAmount := none,
    taxableAmount := none, totalGstAmount := none, tcsAmount := none }

/-- Stock row with every nullable column NULL, used to build test fixtures. -/
def blankStock (m : String) : StockRow :=
  { material := m, stockInMeters := none, basicPrice := none,
    description2ForTheMaterialGroup := none, fabricType := none,
    endUse := none, colourFamily := none, patternName := none,
    loomType := none, dyedType := none, ainocularDesign := none }

/-- Fixture: invoice line owned by the ACME bill-to code. -/
def rowACME : InvoiceRow :=
  { blankInvoice with
    id := 1, billingDocument := some "B1", item := some 1,
    invoiceDate := some "2024-01-02", billToParty := some "ACME Textiles",
    billToPartyCode := some "ACME" }

/-- Fixture: database with the single ACME invoice line. -/
def dbACME : DB := ⟨[rowACME], []⟩

/-- Fixture: a session user whose display name is ACME. -/
def userA : SessionUser := ⟨"user-1", "ACME", "a@example.com"⟩

/-- Fixture: a different session user with the same display name. -/
def userB : SessionUser := ⟨"user-2", "ACME", "b@example.com"⟩

/-- Fixture: a session user with a different display name. -/
def userC : SessionUser := ⟨"user-3", "OTHER", "c@example.com"⟩

/-- Fixture: database with sixty identical stock rows, for the pagination
    cap check. -/
def db60 : DB := ⟨[], List.replicate 60 (blankStock "M-BULK")⟩

/-- Fixture: current-period invoice for the growth example. -/
def rowGrowthCurrent : InvoiceRow :=
  { blankInvoice with
    id := 2, invoiceDate := some "2025-06-01",
    regionZone := some "NORTH", netAmountInr := some 150 }

/-- Fixture: previous-period invoice for the growth example. -/
def rowGrowthPrevious : InvoiceRow :=
  { blankInvoice with
    id := 3, invoiceDate := some "2024-06-01",
    regionZone := some "NORTH", netAmountInr := some 200 }

/-- Fixture: database for the growth example. -/
def dbGrowth : DB := ⟨[rowGrowthCurrent, rowGrowthPrevious], []⟩

/-- Fixture: invoice selling sixty meters of material M5 in the trailing
    window. -/
def rowSalesM5 : InvoiceRow :=
  { blankInvoice with
    id := 4, invoiceDate := some "2025-09-01",
    material := some "M5", billedQuantity := some 60 }

/-- Fixture: stock row for M5 with ten meters on hand. -/
def stockM5 : StockRow := { blankStock "M5" with
    stockInMeters := some 10 }

/-- Fixture: database for the stock-vs-sales classification example. -/
def dbStockSales : DB := ⟨[rowSalesM5], [stockM5]⟩

/-- Fixture: invoice selling six hundred meters of material M1 in the
    trailing six months. -/
def rowSalesM1 : InvoiceRow :=
  { blankInvoice with
    id := 5, invoiceDate := some "2025-09-01",
    material := some "M1", billedQuantity := some 600 }

/-- Fixture: stock row for M1 holding 596 meters, just below six months of
    coverage. -/
def stockM1 : StockRow :=
  { blankStock "M1" with
    stockInMeters := some 596, basicPrice := some 1 }

/-- Fixture: database for the excess-report rounding check. -/
def dbExcess : DB := ⟨[rowSalesM1], [stockM1]⟩

/-- Fixture: stock row for M2 that never appears in any invoice. -/
def stockM2 : StockRow :=
  { blankStock "M2" with
    stockInMeters := some 50, basicPrice := some 1 }

/-- Fixture: database with a stock-only material and no invoices. -/
def dbStockOnly : DB := ⟨[], [stockM2]⟩

/-- Fixture: invoice line for the PDF link example. -/
def rowPdf : InvoiceRow :=
  { blankInvoice with
    id := 6, billingDocument := some "91234567",
    item := some 1, invoiceDate := some "2024-03-05",
    billToParty := some "ACME Textiles" }

/-- Fixture: database for the PDF link example. -/
def dbPdf : DB := ⟨[rowPdf], []⟩

theorem mem_insertSorted {le : α → α → Bool} {a x : α} {l : List α} :
    x ∈ insertSorted le a l ↔ x = a ∨ x ∈ l := by
  induction l with
  | nil => simp [insertSorted]
  | cons b bs ih =>
    simp only [insertSorted]
    split
    · simp
    · simp only [List.mem_cons, ih]
      tauto

theorem mem_sortBy {le : α → α → Bool} {x : α} {l : List α} :
    x ∈ sortBy le l ↔ x ∈ l := by
  induction l with
  | nil => simp [sortBy]
  | cons b bs ih =>
    simp only [sortBy, List.foldr] at *
    simp only [mem_insertSorted, List.mem_cons, ih]

theorem length_insertSorted (le : α → α → Bool) (a : α) (l : List α) :
    (insertSorted le a l).length = l.length + 1 := by
  induction l with
  | nil => rfl
  | cons c cs ihm => simp only [insertSorted]; split <;> simp [ihm]

theorem length_sortBy (le : α → α → Bool) (l : List α) :
    (sortBy le l).length = l.length := by
  induction l with
  | nil => rfl
  | cons b bs ih =>
    simp only [sortBy, List.foldr] at *
    simp [length_insertSorted, ih]

theorem mem_dedupFirst_go [DecidableEq α] (x : α) :
    ∀ (l seen : List α), x ∈ dedupFirst.go l seen ↔ x ∈ l ∧ x ∉ seen := by
  intro l
  induction l with
  | nil => intro seen; simp [dedupFirst.go]
  | cons a as ih =>
    intro seen
    simp only [dedupFirst.go]
    split
    · rename_i hseen
      simp only [ih, List.mem_cons]
      constructor
      · exact fun h => ⟨Or.inr h.1, h.2⟩
      · rintro ⟨h1 | h1, h2⟩
        · exact absurd hseen (h1 ▸ h2)
        · exact ⟨h1, h2⟩
    · rename_i hseen
      simp only [List.mem_cons, ih]
      constructor
      · rintro (rfl | ⟨h1, h2⟩)
        · exact ⟨Or.inl rfl, hseen⟩
        · exact ⟨Or.inr h1, fun hx => h2 (Or.inr hx)⟩
      · rintro ⟨rfl | h1, h2⟩
        · exact Or.inl rfl
        · by_cases hxa : x = a
          · exact Or.inl hxa
          · exact Or.inr ⟨h1, by simp [hxa, h2]⟩

theorem mem_dedupFirst [DecidableEq α] {x : α} {l : List α} :
    x ∈ dedupFirst l ↔ x ∈ l := by
  simp [dedupFirst, mem_dedupFirst_go]

theorem sqlEqS_iff {col : Option String} {v : String} :
    sqlEqS col v = true ↔ col = some v := by
  cases col <;> simp [sqlEqS]

theorem mem_applyPage {l : List α} {lim off : Int} {x : α}
    (h : x ∈ applyPage l lim off) : x ∈ l :=
  List.drop_subset _ _ (List.take_subset _ _ h)

theorem length_applyPage_le (l : List α) (lim off : Int) :
    (applyPage l lim off).length ≤ lim.toNat :=
  List.length_take_le _ _

theorem velocityGet_eq_zero {sales : List (Option String × ℚ)} {m : String}
    (h : ∀ p ∈ sales, p.1 ≠ some m) : velocityGet sales m = 0 := by
  unfold velocityGet
  cases hf : sales.reverse.find? (fun p => p.1 = some m) with
  | none => rfl
  | some p =>
    have hp := List.find?_some hf
    have hpm : p ∈ sales := List.mem_reverse.mp (List.mem_of_find?_eq_some hf)
    simp only [decide_eq_true_eq] at hp
    exact absurd hp (h p hpm)

theorem div_six_pos_iff (s : ℚ) : 0 < s / 6 ↔ 0 < s := by
  constructor
  · intro h
    nlinarith [h]
  · intro h
    exact div_pos h (by norm_num)

theorem mem_classifyStockSales {typ : StockAnalysisType} {stocks : List StockRow}
    {sales : List (Option String × ℚ)} {r : StockSalesRow} :
    r ∈ classifyStockSales typ stocks sales ↔
    ∃ q s, (some r.material, q) ∈ sales ∧ ¬(r.material = "") ∧
      jsMapGet stocks r.material = some s ∧
      (match typ with
       | .high_sales_zero_stock =>
         s.stockInMeters.getD 0 ≤ 0 ∧ 0 < q ∧
         r = ⟨r.material, s.stockInMeters.getD 0, some q, none, none⟩
       | .out_of_stock =>
         s.stockInMeters.getD 0 ≤ 0 ∧
         r = ⟨r.material, s.stockInMeters.getD 0, none, none, none⟩
       | .likely_stock_out =>
         0 < s.stockInMeters.getD 0 ∧ s.stockInMeters.getD 0 < q / 3 ∧
         r = ⟨r.material, s.stockInMeters.getD 0, none, some (q / 3),
           some (s.stockInMeters.getD 0 / (q / 3))⟩
       | .low_stock =>
         0 < s.stockInMeters.getD 0 ∧ s.stockInMeters.getD 0 < 100 ∧
         r = ⟨r.material, s.stockInMeters.getD 0, none, none, none⟩
       | .excess_stock => False) := by
  constructor
  · intro hr
    obtain ⟨sale, hmem, heq⟩ := List.mem_filterMap.mp hr
    obtain ⟨mopt, q⟩ := sale
    cases mopt with
    | none => simp [classifyStockSales] at heq
    | some m =>
      simp only [classifyStockSales] at heq
      by_cases hm : m = ""
      · simp [hm] at heq
      · rw [if_neg hm] at heq
        cases hs : jsMapGet stocks m with
        | none => rw [hs] at heq; simp at heq
        | some s =>
          rw [hs] at heq
          cases typ <;> simp only [] at heq <;>
            [skip; skip; skip; skip; exact absurd heq (by simp)] <;>
            · split at heq
              · rename_i hcond
                injection heq with heq
                subst heq
                exact ⟨q, s, hmem, hm, hs, by simp_all⟩
              · exact absurd heq (by simp)
  · rintro ⟨q, s, hmem, hm, hs, hcond⟩
    refine List.mem_filterMap.mpr ⟨(some r.material, q), hmem, ?_⟩
    cases typ with
    | high_sales_zero_stock =>
      obtain ⟨h1, h2, h3⟩ := hcond
      simp only [classifyStockSales, if_neg hm, hs]
      rw [if_pos ⟨h1, h2⟩, ← h3]
    | out_of_stock =>
      obtain ⟨h1, h3⟩ := hcond
      simp only [classifyStockSales, if_neg hm, hs]
      rw [if_pos h1, ← h3]
    | likely_stock_out =>
      obtain ⟨h1, h2, h3⟩ := hcond
      simp only [classifyStockSales, if_neg hm, hs]
      rw [if_pos ⟨h1, h2⟩, ← h3]
    | low_stock =>
      obtain ⟨h1, h2, h3⟩ := hcond
      simp only [classifyStockSales, if_neg hm, hs]
      rw [if_pos ⟨h1, h2⟩, ← h3]
    | excess_stock => exact absurd hcond (by simp)

theorem excessFlag_excessRowOf_iff (sales : List (Option String × ℚ))
    (item : StockRow) (threshold : ℚ) :
    excessFlag threshold (excessRowOf sales item) = true ↔
    0 < item.stockInMeters.getD 0 ∧
      (velocityGet sales item.material ≤ 0 ∨
       threshold ≤ toFixed1 (item.stockInMeters.getD 0 /
         (velocityGet sales item.material / 6))) := by
  simp only [excessRowOf, excessFlag]
  by_cases h1 : 0 < velocityGet sales item.material / 6
  · have h6 : 0 < velocityGet sales item.material := (div_six_pos_iff _).mp h1
    rw [if_pos h1]
    simp only [Bool.and_eq_true, decide_eq_true_eq]
    constructor
    · rintro ⟨hcs, hc⟩; exact ⟨hcs, Or.inr hc⟩
    · rintro ⟨hcs, hc | hc⟩
      · linarith
      · exact ⟨hcs, hc⟩
  · have h6 : velocityGet sales item.material ≤ 0 := by
      by_contra hn
      push_neg at hn
      exact h1 ((div_six_pos_iff _).mpr hn)
    rw [if_neg h1]
    by_cases h2 : 0 < item.stockInMeters.getD 0
    · rw [if_pos h2]
      simp [h2, h6]
    · rw [if_neg h2]
      simp [h2]

/-- C1: every user-scoped tool (getMyProfile, getMyInvoiceHistory,
    getMyRecentInvoices, getMyInvoiceSummary, getMyInvoiceDetails,
    getMyInvoicePdf, getMyPurchasesByMaterial, getMyMonthlyPurchaseTrend)
    called when the session cannot be resolved to an identity returns
    success false with a non-empty error message and a null data or pdfUrl
    field, and performs zero reads against the invoice and stock record
    sets, for every input. -/
theorem userTools_fail_closed_unauthenticated :
    ∀ (db : DB) (fromDate toDate : Option String)
      (limit offset months : Option Int) (bd : String) (it : Option Int)
      (clock : Nat → String),
      ((getMyProfile none db).1.success = false ∧
        (∃ m, (getMyProfile none db).1.error = some m ∧ m ≠ "") ∧
        (getMyProfile none db).1.data = none ∧
        (getMyProfile none db).2 = 0) ∧
      ((getMyInvoiceHistory none fromDate toDate limit offset db).1.success = false ∧
        (∃ m, (getMyInvoiceHistory none fromDate toDate limit offset db).1.error =
          some m ∧ m ≠ "") ∧
        (getMyInvoiceHistory none fromDate toDate limit offset db).1.data = none ∧
        (getMyInvoiceHistory none fromDate toDate limit offset db).2 = 0) ∧
      ((getMyRecentInvoices none limit db).1.success = false ∧
        (∃ m, (getMyRecentInvoices none limit db).1.error = some m ∧ m ≠ "") ∧
        (getMyRecentInvoices none limit db).1.data = none ∧
        (getMyRecentInvoices none limit db).2 = 0) ∧
      ((getMyInvoiceSummary none fromDate toDate db).1.success = false ∧
        (∃ m, (getMyInvoiceSummary none fromDate toDate db).1.error = some m ∧ m ≠ "") ∧
        (getMyInvoiceSummary none fromDate toDate db).1.data = none ∧
        (getMyInvoiceSummary none fromDate toDate db).2 = 0) ∧
      ((getMyInvoiceDetails none bd it db).1.success = false ∧
        (∃ m, (getMyInvoiceDetails none bd it db).1.error = some m ∧ m ≠ "") ∧
        (getMyInvoiceDetails none bd it db).1.data = none ∧
        (getMyInvoiceDetails none bd it db).2 = 0) ∧
      ((getMyInvoicePdf none bd db).1.success = false ∧
        (∃ m, (getMyInvoicePdf none bd db).1.error = some m ∧ m ≠ "") ∧
        (getMyInvoicePdf none bd db).1.pdfUrl = none ∧
        (getMyInvoicePdf none bd db).2 = 0) ∧
      ((getMyPurchasesByMaterial none fromDate toDate limit db).1.success = false ∧
        (∃ m, (getMyPurchasesByMaterial none fromDate toDate limit db).1.error =
          some m ∧ m ≠ "") ∧
        (getMyPurchasesByMaterial none fromDate toDate limit db).1.data = none ∧
        (getMyPurchasesByMaterial none fromDate toDate limit db).2 = 0) ∧
      ((getMyMonthlyPurchaseTrend none months clock db).1.success = false ∧
        (∃ m, (getMyMonthlyPurchaseTrend none months clock db).1.error =
          some m ∧ m ≠ "") ∧
        (getMyMonthlyPurchaseTrend none months clock db).1.data = none ∧
        (getMyMonthlyPurchaseTrend none months clock db).2 = 0) := by
  intro db fromDate toDate limit offset months bd it clock
  exact ⟨⟨rfl, ⟨_, rfl, by decide⟩, rfl, rfl⟩,
    ⟨rfl, ⟨_, rfl, by decide⟩, rfl, rfl⟩,
    ⟨rfl, ⟨_, rfl, by decide⟩, rfl, rfl⟩,
    ⟨rfl, ⟨_, rfl, by decide⟩, rfl, rfl⟩,
    ⟨rfl, ⟨_, rfl, by decide⟩, rfl, rfl⟩,
    ⟨rfl, ⟨_, rfl, by decide⟩, rfl, rfl⟩,
    ⟨rfl, ⟨_, rfl, by decide⟩, rfl, rfl⟩,
    ⟨rfl, ⟨_, rfl, by decide⟩, rfl, rfl⟩⟩

/-- C10: getCityAnalysis with type avg_selling_rate does not apply the city
    filter: for every database state and any two city arguments the results
    coincide and equal the average basic price grouped over all cities. -/
theorem cityAnalysis_avgRate_independent_of_city :
    ∀ (db : DB) (c1 c2 : String),
      getCityAnalysis c1 .avg_selling_rate db =
        getCityAnalysis c2 .avg_selling_rate db ∧
      getCityAnalysis c1 .avg_selling_rate db = .avgRates (cityAvgRates db) :=
  fun _ _ _ => ⟨rfl, rfl⟩

theorem runOrchestrator_length_le (step : List String → StepOutput)
    (execTool : Nat → String) :
    ∀ (fuel : Nat) (hist : List String),
      (runOrchestrator step execTool fuel hist).length ≤ fuel := by
  intro fuel
  induction fuel with
  | zero => intro hist; simp [runOrchestrator]
  | succ n ih =>
    intro hist
    simp only [runOrchestrator]
    split
    · simp
    · exact Nat.succ_le_succ (ih _)

theorem runOrchestrator_stops (step : List String → StepOutput)
    (execTool : Nat → String) (fuel : Nat) (hist : List String)
    (h : (step hist).toolRequests = []) :
    runOrchestrator step execTool (fuel + 1) hist = [step hist] := by
  simp [runOrchestrator, h]

theorem runOrchestrator_length_all_tools (step : List String → StepOutput)
    (execTool : Nat → String) (hstep : ∀ h, (step h).toolRequests ≠ []) :
    ∀ (fuel : Nat) (hist : List String),
      (runOrchestrator step execTool fuel hist).length = fuel := by
  intro fuel
  induction fuel with
  | zero => intro hist; rfl
  | succ n ih =>
    intro hist
    simp only [runOrchestrator]
    rw [if_neg (by simp [List.isEmpty_iff, hstep hist])]
    simp [ih]

/-- C9: one conversational turn executes at most 7 model steps; it stops at
    the first step that requests no tool calls, and when the model requests
    tools on every step it stops after exactly 7 steps, still returning the
    outputs produced so far instead of failing. -/
theorem orchestrator_step_budget :
    ∀ (step : List String → StepOutput) (execTool : Nat → String)
      (messages : List String),
      (chatTurn step execTool messages).length ≤ 7 ∧
      ((step messages).toolRequests = [] →
        chatTurn step execTool messages = [step messages]) ∧
      ((∀ h, (step h).toolRequests ≠ []) →
        (chatTurn step execTool messages).length = 7 ∧
        chatTurn step execTool messages ≠ []) := by
  intro step execTool messages
  refine ⟨runOrchestrator_length_le step execTool 7 messages, ?_, ?_⟩
  · intro h0
    exact runOrchestrator_stops step execTool 6 messages h0
  · intro hstep
    have hlen := runOrchestrator_length_all_tools step execTool hstep 7 messages
    refine ⟨hlen, ?_⟩
    intro hnil
    have hlen7 : (chatTurn step execTool messages).length = 7 := hlen
    rw [hnil] at hlen7
    simp at hlen7

/-- Witness for C9: a model that always requests another tool call runs
    exactly 7 steps, and a model that requests none finishes in one. -/
theorem orchestrator_step_budget_witness :
    (chatTurn (fun _ => (⟨"continue", [0]⟩ : StepOutput)) (fun _ => "result")
      ["hi"]).length = 7 ∧
    chatTurn (fun _ => (⟨"done", []⟩ : StepOutput)) (fun _ => "result") ["hi"] =
      [⟨"done", []⟩] :=
  ⟨((orchestrator_step_budget (fun _ => ⟨"continue", [0]⟩) (fun _ => "result")
      ["hi"]).2.2 (fun _ => by decide)).1,
   (orchestrator_step_budget (fun _ => ⟨"done", []⟩) (fun _ => "result")
      ["hi"]).2.1 rfl⟩

/-- C8: getInvoicePdfLink returns, for a blank or whitespace identifier, a
    typed missing-parameter failure with zero storage reads; for an
    identifier with a matching invoice row, success with the bucket URL
    formed from the trimmed identifier and a .pdf suffix; and for an
    identifier with no matching row, failure with a null pdfUrl. -/
theorem invoicePdfLink_contract :
    ∀ (db : DB) (bd : String),
      (jsTrim bd = "" →
        getInvoicePdfLink bd db =
          (⟨false, some "Billing document ID is required.", none, none, none,
            none, none, none⟩, 0)) ∧
      (jsTrim bd ≠ "" →
        (∃ r ∈ db.invoices, r.billingDocument = some (jsTrim bd)) →
        (getInvoicePdfLink bd db).1.success = true ∧
        (getInvoicePdfLink bd db).1.pdfUrl =
          some (INVOICE_PDF_BUCKET_URL ++ "/" ++ jsTrim bd ++ ".pdf")) ∧
      (jsTrim bd ≠ "" →
        (∀ r ∈ db.invoices, r.billingDocument ≠ some (jsTrim bd)) →
        (getInvoicePdfLink bd db).1.success = false ∧
        (getInvoicePdfLink bd db).1.pdfUrl = none) := by
  intro db bd
  refine ⟨?_, ?_, ?_⟩
  · intro h
    simp [getInvoicePdfLink, h]
  · intro hne hex
    have hfil : db.invoices.filter
        (fun r => sqlEqS r.billingDocument (jsTrim bd)) ≠ [] := by
      obtain ⟨r, hr, hbd⟩ := hex
      intro hnil
      have hmem : r ∈ db.invoices.filter
          (fun r => sqlEqS r.billingDocument (jsTrim bd)) :=
        List.mem_filter.mpr ⟨hr, sqlEqS_iff.mpr hbd⟩
      rw [hnil] at hmem
      simp at hmem
    cases hfl : db.invoices.filter
        (fun r => sqlEqS r.billingDocument (jsTrim bd)) with
    | nil => exact absurd hfl hfil
    | cons r rs =>
      constructor <;> simp [getInvoicePdfLink, if_neg hne, hfl]
  · intro hne hall
    have hfl : db.invoices.filter
        (fun r => sqlEqS r.billingDocument (jsTrim bd)) = [] := by
      rw [List.filter_eq_nil_iff]
      intro r hr hc
      exact absurd (sqlEqS_iff.mp hc) (hall r hr)
    constructor <;> simp [getInvoicePdfLink, if_neg hne, hfl]

/-- Witness for C8: billing document 91234567 yields the bucket URL ending
    in /91234567.pdf, a whitespace identifier fails without a read, and an
    unknown identifier fails with a null URL. -/
theorem invoicePdfLink_contract_witness :
    (getInvoicePdfLink "91234567" dbPdf).1.success = true ∧
    (getInvoicePdfLink "91234567" dbPdf).1.pdfUrl =
      some "https://ainoc-chatbot-files-bucket.s3.us-east-2.amazonaws.com/91234567.pdf" ∧
    getInvoicePdfLink "   " dbPdf =
      (⟨false, some "Billing document ID is required.", none, none, none,
        none, none, none⟩, 0) ∧
    (getInvoicePdfLink "00000000" dbPdf).1.success = false ∧
    (getInvoicePdfLink "00000000" dbPdf).1.pdfUrl = none := by
  have h91 := invoicePdfLink_contract dbPdf "91234567"
  have hws := invoicePdfLink_contract dbPdf "   "
  have h00 := invoicePdfLink_contract dbPdf "00000000"
  have hex : ∃ r ∈ dbPdf.invoices, r.billingDocument = some (jsTrim "91234567") :=
    ⟨rowPdf, by decide, by decide⟩
  have hmiss : ∀ r ∈ dbPdf.invoices, r.billingDocument ≠ some (jsTrim "00000000") := by
    decide
  refine ⟨(h91.2.1 (by decide) hex).1,
    ((h91.2.1 (by decide) hex).2).trans (by decide),
    hws.1 (by decide),
    (h00.2.2 (by decide) hmiss).1,
    (h00.2.2 (by decide) hmiss).2⟩

/-- Counterexample for C3: searchStock has no cap at its documented limit of
    50: a limit of 60 over sixty stock rows returns sixty rows, exceeding
    the documented cap, and the limit computation shared by getTopProducts
    and searchStock passes a negative limit through instead of falling back
    to the default. -/
theorem pagination_cap_counterexample :
    (searchStock {} (some 60) db60).length = 60 ∧
    ¬((searchStock {} (some 60) db60).length ≤ 50) ∧
    jsOrInt (some (-5)) 50 = -5 ∧ jsOrInt (some (-5)) 50 ≠ 50 ∧
    jsOrInt (some (-5)) 10 = -5 ∧ jsOrInt (some (-5)) 10 ≠ 10 := by
  refine ⟨?_, ?_, by decide, by decide, by decide, by decide⟩ <;> decide

/-- C3 amended: the getSafePagination tools (listCustomerInvoices,
    listMaterialInvoices, getMyInvoiceHistory) clamp limits above 200 to 200
    and fall back to 50 on a non-positive or absent limit; the posCap tools
    clamp at their caps (50 for getMyRecentInvoices, 100 for
    getMyPurchasesByMaterial and getTopCustomersByRevenue) with their
    defaults (10 and 20) on non-positive or absent limits; getTopProducts
    and searchStock apply no cap: the default (10 and 50) applies only to an
    absent or zero limit and any other value, including a negative one,
    passes through; and every result length is bounded by the effective
    limit. -/
theorem pagination_limits_amended :
    ∀ (limit offset : Option Int) (x cap dflt : Int) (db : DB)
      (p : SearchStockParams) (u : SessionUser)
      (codeF partyF fromDate toDate mat des sh rz : Option String),
      (200 < x → (getSafePagination (some x) offset).1 = 200) ∧
      (x ≤ 0 → (getSafePagination (some x) offset).1 = 50) ∧
      (0 < x → x ≤ 200 → (getSafePagination (some x) offset).1 = x) ∧
      (0 < cap → cap ≤ x → posCap (some x) cap dflt = cap) ∧
      (x ≤ 0 → posCap (some x) cap dflt = dflt) ∧
      (0 < x → x ≤ cap → posCap (some x) cap dflt = x) ∧
      (x ≠ 0 → jsOrInt (some x) dflt = x) ∧
      (getSafePagination none offset).1 = 50 ∧
      posCap none cap dflt = dflt ∧
      jsOrInt none dflt = dflt ∧
      jsOrInt (some 0) dflt = dflt ∧
      (listCustomerInvoices codeF partyF fromDate toDate limit offset db).length ≤
        (getSafePagination limit offset).1.toNat ∧
      (listMaterialInvoices mat des sh rz fromDate toDate limit offset db).length ≤
        (getSafePagination limit offset).1.toNat ∧
      ((getMyInvoiceHistory (some u) fromDate toDate limit offset db).1.data.getD
        []).length ≤ (getSafePagination limit offset).1.toNat ∧
      ((getMyRecentInvoices (some u) limit db).1.data.getD []).length ≤
        (posCap limit 50 10).toNat ∧
      ((getMyPurchasesByMaterial (some u) fromDate toDate limit db).1.data.getD
        []).length ≤ (posCap limit 100 20).toNat ∧
      (getTopCustomersByRevenue fromDate toDate limit db).length ≤
        (posCap limit 100 20).toNat ∧
      (getTopProducts limit db).length ≤ (jsOrInt limit 10).toNat ∧
      (searchStock p limit db).length ≤ (jsOrInt limit 50).toNat := by
  intro limit offset x cap dflt db p u codeF partyF fromDate toDate mat des sh rz
  refine ⟨?_, ?_, ?_, ?_, ?_, ?_, ?_, ?_, ?_, ?_, ?_, ?_, ?_, ?_, ?_, ?_, ?_, ?_, ?_⟩
  · intro h
    simp only [getSafePagination, posCap]
    rw [if_pos (by omega)]
    omega
  · intro h
    simp only [getSafePagination, posCap]
    rw [if_neg (by omega)]
  · intro h1 h2
    simp only [getSafePagination, posCap]
    rw [if_pos h1]
    omega
  · intro h1 h2
    simp only [posCap]
    rw [if_pos (by omega)]
    omega
  · intro h
    simp only [posCap]
    rw [if_neg (by omega)]
  · intro h1 h2
    simp only [posCap]
    rw [if_pos h1]
    omega
  · intro h
    simp only [jsOrInt]
    rw [if_neg h]
  · rfl
  · rfl
  · rfl
  · rfl
  · exact length_applyPage_le _ _ _
  · exact length_applyPage_le _ _ _
  · exact length_applyPage_le _ _ _
  · exact List.length_take_le _ _
  · exact List.length_take_le _ _
  · exact List.length_take_le _ _
  · exact List.length_take_le _ _
  · exact List.length_take_le _ _

/-- Witness for C3 amended: a limit of 500 is clamped to 200, a limit of
    minus three falls back to 50, a limit of 70 is clamped to 50 for the
    recent-invoices cap, a negative searchStock limit passes through, and a
    concrete recent-invoices call respects its effective limit. -/
theorem pagination_limits_amended_witness :
    (getSafePagination (some 500) none).1 = 200 ∧
    (getSafePagination (some (-3)) none).1 = 50 ∧
    posCap (some 70) 50 10 = 50 ∧
    jsOrInt (some (-5)) 50 = -5 ∧
    ((getMyRecentInvoices (some userA) (some 1) dbACME).1.data.getD []).length ≤
      (posCap (some 1) 50 10).toNat := by
  obtain ⟨h1, -, -, -, -, -, -, -, -, -, -, -, -, -, -, -, -, -, -⟩ :=
    pagination_limits_amended (some 1) none 500 50 10 dbACME {} userA
      none none none none none none none none
  obtain ⟨-, h2, -, -, -, -, -, -, -, -, -, -, -, -, -, -, -, -, -⟩ :=
    pagination_limits_amended (some 1) none (-3) 50 10 dbACME {} userA
      none none none none none none none none
  obtain ⟨-, -, -, h3, -, -, -, -, -, -, -, -, -, -, -, -, -, -, -⟩ :=
    pagination_limits_amended (some 1) none 70 50 10 dbACME {} userA
      none none none none none none none none
  obtain ⟨-, -, -, -, -, -, h4, -, -, -, -, -, -, -, -, -, -, -, -⟩ :=
    pagination_limits_amended (some 1) none (-5) 50 50 dbACME {} userA
      none none none none none none none none
  obtain ⟨-, -, -, -, -, -, -, -, -, -, -, -, -, -, h5, -, -, -, -⟩ :=
    pagination_limits_amended (some 1) none 1 50 10 dbACME {} userA
      none none none none none none none none
  exact ⟨h1 (by decide), h2 (by decide), h3 (by decide) (by decide),
    h4 (by decide), h5⟩

theorem detailsRowsOf_subset (user : AuthenticatedUser) (bd : String) :
    ∀ (L : List InvoiceRow) (r : InvoiceRow),
      r ∈ detailsRowsOf (detailsResultOf user bd L).1 → r ∈ L := by
  intro L r hr
  match L with
  | [] => simp [detailsResultOf, detailsRowsOf] at hr
  | [a] => simpa [detailsResultOf, detailsRowsOf, DetailsData.rows] using hr
  | a :: b :: bs => simpa [detailsResultOf, detailsRowsOf, DetailsData.rows] using hr

theorem myPdfResultOf_success {bd : String} {hits : List InvoiceRow}
    (h : (myPdfResultOf bd hits).1.success = true) :
    ∃ r ∈ hits, (myPdfResultOf bd hits).1.billToPartyCode = r.billToPartyCode := by
  match hits with
  | [] => simp [myPdfResultOf] at h
  | r :: rest => exact ⟨r, List.mem_cons_self r rest, rfl⟩

/-- Counterexample for C2: two distinct identities that share the display
    name ACME are both scoped to the same ownership key, so both receive
    the same invoice row and their result sets are not disjoint. -/
theorem scoped_rows_counterexample :
    userA ≠ userB ∧
    (getMyInvoiceHistory (some userA) none none none none dbACME).1.data =
      some [rowACME] ∧
    (getMyInvoiceHistory (some userB) none none none none dbACME).1.data =
      some [rowACME] :=
  ⟨by decide, by decide, by decide⟩

/-- C2 amended: every invoice row returned by a user-scoped tool carries the
    billToPartyCode equal to the ownership key of the caller, which is the
    display name of the session user; consequently two identities whose
    ownership keys (display names) differ receive disjoint row sets, while
    two distinct identities sharing a display name receive the same rows. -/
theorem scoped_tools_ownership :
    ∀ (u u2 : SessionUser) (db : DB) (fromDate toDate : Option String)
      (limit offset : Option Int) (bd : String) (it : Option Int),
      (∀ r, r ∈ (getMyInvoiceHistory (some u) fromDate toDate limit offset
          db).1.data.getD [] → r.billToPartyCode = some u.name) ∧
      (∀ r, r ∈ (getMyRecentInvoices (some u) limit db).1.data.getD [] →
        r.billToPartyCode = some u.name) ∧
      (∀ r, r ∈ detailsRowsOf (getMyInvoiceDetails (some u) bd it db).1 →
        r.billToPartyCode = some u.name) ∧
      ((getMyInvoicePdf (some u) bd db).1.success = true →
        (getMyInvoicePdf (some u) bd db).1.billToPartyCode = some u.name) ∧
      (∀ g, g ∈ (getMyPurchasesByMaterial (some u) fromDate toDate limit
          db).1.data.getD [] →
        ∃ r ∈ db.invoices, r.billToPartyCode = some u.name ∧
          g.material = r.material) ∧
      (u.name ≠ u2.name →
        ∀ r, r ∈ (getMyInvoiceHistory (some u) fromDate toDate limit offset
            db).1.data.getD [] →
          r ∈ (getMyInvoiceHistory (some u2) fromDate toDate limit offset
            db).1.data.getD [] → False) := by
  intro u u2 db fromDate toDate limit offset bd it
  have ha : ∀ (v : SessionUser) (r : InvoiceRow),
      r ∈ (getMyInvoiceHistory (some v) fromDate toDate limit offset
        db).1.data.getD [] → r.billToPartyCode = some v.name := by
    intro v r hr
    have h1 : r ∈ db.invoices.filter (fun row =>
        sqlEqS row.billToPartyCode v.name &&
        inDateRange row.invoiceDate fromDate toDate) :=
      mem_sortBy.mp (mem_applyPage hr)
    have h2 := (List.mem_filter.mp h1).2
    simp only [Bool.and_eq_true] at h2
    exact sqlEqS_iff.mp h2.1
  refine ⟨ha u, ?_, ?_, ?_, ?_, ?_⟩
  · intro r hr
    have h1 : r ∈ db.invoices.filter (fun row =>
        sqlEqS row.billToPartyCode u.name) :=
      mem_sortBy.mp (List.take_subset _ _ hr)
    exact sqlEqS_iff.mp (List.mem_filter.mp h1).2
  · by_cases htr : jsTrim bd = ""
    · intro r hr
      have hz : detailsRowsOf (getMyInvoiceDetails (some u) bd it db).1 = [] := by
        simp [getMyInvoiceDetails, getAuthenticatedUser, htr, detailsRowsOf]
      rw [hz] at hr
      simp at hr
    · have hres : getMyInvoiceDetails (some u) bd it db =
          detailsResultOf ⟨u.id, u.name, u.email, u.name⟩ bd
            (sortBy (fun a b => optIntAscLe a.item b.item)
              (db.invoices.filter (fun row =>
                sqlEqS row.billingDocument (jsTrim bd) &&
                sqlEqS row.billToPartyCode u.name &&
                (match it with
                 | some i => row.item = some i
                 | none => true)))) := by
        simp [getMyInvoiceDetails, getAuthenticatedUser, htr]
      intro r hr
      rw [hres] at hr
      have h2 := detailsRowsOf_subset _ _ _ _ hr
      have h3 := (List.mem_filter.mp (mem_sortBy.mp h2)).2
      simp only [Bool.and_eq_true] at h3
      exact sqlEqS_iff.mp h3.1.2
  · intro hsucc
    by_cases htr : jsTrim bd = ""
    · have hf : (getMyInvoicePdf (some u) bd db).1.success = false := by
        simp [getMyInvoicePdf, getAuthenticatedUser, htr]
      rw [hf] at hsucc
      exact absurd hsucc (by decide)
    · have hres : getMyInvoicePdf (some u) bd db =
          myPdfResultOf bd ((db.invoices.filter (fun row =>
            sqlEqS row.billingDocument (jsTrim bd) &&
            sqlEqS row.billToPartyCode u.name)).take 1) := by
        simp [getMyInvoicePdf, getAuthenticatedUser, htr]
      rw [hres] at hsucc ⊢
      obtain ⟨r, hrhits, hfield⟩ := myPdfResultOf_success hsucc
      have h3 := (List.mem_filter.mp (List.take_subset _ _ hrhits)).2
      simp only [Bool.and_eq_true] at h3
      rw [hfield]
      exact sqlEqS_iff.mp h3.2
  · intro g hg
    have h1 : g ∈ purchaseGroupsOf (db.invoices.filter (fun row =>
        sqlEqS row.billToPartyCode u.name &&
        inDateRange row.invoiceDate fromDate toDate)) :=
      mem_sortBy.mp (List.take_subset _ _ hg)
    simp only [purchaseGroupsOf] at h1
    obtain ⟨k, hk, hgk⟩ := List.mem_map.mp h1
    obtain ⟨r, hr, hkr⟩ := List.mem_map.mp (mem_dedupFirst.mp hk)
    have hsplit := List.mem_filter.mp hr
    have h3 := hsplit.2
    simp only [Bool.and_eq_true] at h3
    refine ⟨r, hsplit.1, sqlEqS_iff.mp h3.1, ?_⟩
    rw [← hgk, ← hkr]
    rfl
  · intro hne r hr1 hr2
    have e1 := ha u r hr1
    have e2 := ha u2 r hr2
    rw [e1] at e2
    exact hne (Option.some.inj e2)

/-- Witness for C2 amended: for the ACME user, a returned history row and a
    successful PDF lookup both carry the ACME ownership key. -/
theorem scoped_tools_ownership_witness :
    rowACME.billToPartyCode = some userA.name ∧
    (getMyInvoicePdf (some userA) "B1" dbACME).1.billToPartyCode =
      some userA.name := by
  have h := scoped_tools_ownership userA userC dbACME none none none none "B1" none
  exact ⟨h.1 rowACME (by decide), h.2.2.2.1 (by decide)⟩

/-- C4: the growth tools report, for every dimension group, the percentage
    (current minus previous) over previous times 100 when previous revenue
    is non-zero (rounded to two decimals for display), 100 when previous is
    zero and current is positive, and 0 when previous is zero and current is
    not positive; previous 200 with current 150 gives minus 25.00 and
    previous 0 with current 100 gives 100. -/
theorem growth_percentage_formula :
    ∀ (db : DB) (today oneYearAgo twoYearsAgo : String) (limit : Option Int)
      (prev curr : ℚ),
      (prev ≠ 0 → growthValue prev curr = (curr - prev) / prev * 100) ∧
      (0 < curr → growthValue 0 curr = 100) ∧
      (curr ≤ 0 → growthValue 0 curr = 0) ∧
      growthValue 200 150 = -25 ∧
      toFixed2 (growthValue 200 150) = -25 ∧
      growthValue 0 100 = 100 ∧
      (∀ row ∈ getRegionGrowth db today oneYearAgo twoYearsAgo,
        row.growthPercentage =
          toFixed2 (growthValue row.previousRevenue row.currentRevenue)) ∧
      (∀ row ∈ getCustomerGrowth limit db today oneYearAgo twoYearsAgo,
        row.growthPercentage =
          toFixed2 (growthValue row.previousRevenue row.currentRevenue)) := by
  intro db today oneYearAgo twoYearsAgo limit prev curr
  refine ⟨?_, ?_, ?_, ?_, ?_, ?_, ?_, ?_⟩
  · intro h
    simp [growthValue, h]
  · intro h
    simp [growthValue, h]
  · intro h
    simp [growthValue, not_lt.mpr h]
  · norm_num [growthValue]
  · norm_num [growthValue, toFixed2]
  · norm_num [growthValue]
  · intro row hrow
    obtain ⟨c, hc, rfl⟩ := List.mem_map.mp (mem_sortBy.mp hrow)
    rfl
  · intro row hrow
    obtain ⟨c, hc, rfl⟩ :=
      List.mem_map.mp (mem_sortBy.mp (List.take_subset _ _ hrow))
    rfl

/-- Witness for C4: the documented examples, and the single NORTH region of
    the growth fixture database reports exactly minus 25. -/
theorem growth_percentage_formula_witness :
    growthValue 200 150 = -25 ∧ growthValue 0 100 = 100 ∧
    (⟨some "NORTH", 150, 200, -25⟩ : RegionGrowthRow).growthPercentage =
      toFixed2 (growthValue (200 : ℚ) 150) := by
  have h := growth_percentage_formula dbGrowth "2025-10-12" "2024-10-12"
    "2023-10-12" none 200 150
  have hlist : getRegionGrowth dbGrowth "2025-10-12" "2024-10-12" "2023-10-12" =
      [⟨some "NORTH", 150, 200, -25⟩] := by
    norm_num +decide [getRegionGrowth, groupSum, dedupFirst, dedupFirst.go,
      qsumBy, sqlGeD, sqlLeD, sortBy, insertSorted, growthValue, toFixed2,
      dbGrowth, rowGrowthCurrent, rowGrowthPrevious, blankInvoice,
      List.filter, List.find?]
  have hmem : (⟨some "NORTH", 150, 200, -25⟩ : RegionGrowthRow) ∈
      getRegionGrowth dbGrowth "2025-10-12" "2024-10-12" "2023-10-12" := by
    rw [hlist]
    simp
  exact ⟨h.2.2.2.1, h.2.2.2.2.2.1, h.2.2.2.2.2.2.1 _ hmem⟩

theorem take_pos_singleton {n : Nat} (a : α) (h : 0 < n) :
    List.take n [a] = [a] := by
  cases n with
  | zero => exact absurd h (by decide)
  | succ k => simp

/-- C5: the classification loop of getStockSalesAnalysis, over materials
    present in both the trailing 3-month sales aggregate and the stock set,
    classifies out_of_stock iff quantity at most 0, high_sales_zero_stock
    iff quantity at most 0 with positive trailing sales, likely_stock_out
    iff 0 < quantity < one month of velocity (trailing sold over 3) with
    coverageMonths equal to quantity over monthly velocity, and low_stock
    iff 0 < quantity < 100. -/
theorem stock_sales_classification :
    ∀ (stocks : List StockRow) (sales : List (Option String × ℚ))
      (m : String) (q : ℚ) (s : StockRow) (r : StockSalesRow),
      (r ∈ classifyStockSales .out_of_stock stocks sales → r.stock ≤ 0) ∧
      (r ∈ classifyStockSales .high_sales_zero_stock stocks sales →
        r.stock ≤ 0 ∧ ∃ q0, r.soldLast3Months = some q0 ∧ 0 < q0) ∧
      (r ∈ classifyStockSales .likely_stock_out stocks sales →
        ∃ mv, r.monthlyVelocity = some mv ∧ 0 < r.stock ∧ r.stock < mv ∧
          r.coverageMonths = some (r.stock / mv)) ∧
      (r ∈ classifyStockSales .low_stock stocks sales →
        0 < r.stock ∧ r.stock < 100) ∧
      ((some m, q) ∈ sales → ¬(m = "") → jsMapGet stocks m = some s →
        ((s.stockInMeters.getD 0 ≤ 0 →
          (⟨m, s.stockInMeters.getD 0, none, none, none⟩ : StockSalesRow) ∈
            classifyStockSales .out_of_stock stocks sales) ∧
        (s.stockInMeters.getD 0 ≤ 0 → 0 < q →
          (⟨m, s.stockInMeters.getD 0, some q, none, none⟩ : StockSalesRow) ∈
            classifyStockSales .high_sales_zero_stock stocks sales) ∧
        (0 < s.stockInMeters.getD 0 → s.stockInMeters.getD 0 < q / 3 →
          (⟨m, s.stockInMeters.getD 0, none, some (q / 3),
            some (s.stockInMeters.getD 0 / (q / 3))⟩ : StockSalesRow) ∈
            classifyStockSales .likely_stock_out stocks sales) ∧
        (0 < s.stockInMeters.getD 0 → s.stockInMeters.getD 0 < 100 →
          (⟨m, s.stockInMeters.getD 0, none, none, none⟩ : StockSalesRow) ∈
            classifyStockSales .low_stock stocks sales))) := by
  intro stocks sales m q s r
  refine ⟨?_, ?_, ?_, ?_, ?_⟩
  · intro h
    obtain ⟨q', s', hmem', hm', hs', hcond⟩ := mem_classifyStockSales.mp h
    rw [hcond.2]
    exact hcond.1
  · intro h
    obtain ⟨q', s', hmem', hm', hs', hcond⟩ := mem_classifyStockSales.mp h
    refine ⟨?_, q', ?_, hcond.2.1⟩
    · rw [hcond.2.2]
      exact hcond.1
    · rw [hcond.2.2]
  · intro h
    obtain ⟨q', s', hmem', hm', hs', hcond⟩ := mem_classifyStockSales.mp h
    refine ⟨q' / 3, ?_, ?_, ?_, ?_⟩
    · rw [hcond.2.2]
    · rw [hcond.2.2]
      exact hcond.1
    · rw [hcond.2.2]
      exact hcond.2.1
    · rw [hcond.2.2]
  · intro h
    obtain ⟨q', s', hmem', hm', hs', hcond⟩ := mem_classifyStockSales.mp h
    constructor
    · rw [hcond.2.2]
      exact hcond.1
    · rw [hcond.2.2]
      exact hcond.2.1
  · intro hmem hm hs
    refine ⟨?_, ?_, ?_, ?_⟩
    · intro h1
      exact mem_classifyStockSales.mpr ⟨q, s, hmem, hm, hs, h1, rfl⟩
    · intro h1 h2
      exact mem_classifyStockSales.mpr ⟨q, s, hmem, hm, hs, h1, h2, rfl⟩
    · intro h1 h2
      exact mem_classifyStockSales.mpr ⟨q, s, hmem, hm, hs, h1, h2, rfl⟩
    · intro h1 h2
      exact mem_classifyStockSales.mpr ⟨q, s, hmem, hm, hs, h1, h2, rfl⟩

theorem salesByMaterial_dbStockSales :
    salesByMaterial dbStockSales "2025-04-12" = [(some "M5", 60)] := by
  norm_num +decide [salesByMaterial, groupSum, dedupFirst, dedupFirst.go,
    qsumBy, sqlGeD, dbStockSales, rowSalesM5, blankInvoice, List.filter]

/-- Witness for C5: material M5 sells 60 meters in three months (monthly
    velocity 20) against 10 meters on hand, so it is classified
    likely_stock_out with coverage one half of a month. -/
theorem stock_sales_classification_witness :
    (⟨"M5", 10, none, some 20, some (1/2)⟩ : StockSalesRow) ∈
      classifyStockSales .likely_stock_out dbStockSales.stocks
        (salesByMaterial dbStockSales "2025-04-12") ∧
    (10 : ℚ) / 20 = 1/2 := by
  have h := stock_sales_classification dbStockSales.stocks
    (salesByMaterial dbStockSales "2025-04-12") "M5" 60 stockM5
    ⟨"M5", 10, none, some 20, some (1/2)⟩
  have hmem : ((some "M5" : Option String), (60 : ℚ)) ∈
      salesByMaterial dbStockSales "2025-04-12" := by
    rw [salesByMaterial_dbStockSales]
    simp
  have hs : jsMapGet dbStockSales.stocks "M5" = some stockM5 := by decide
  have hlikely := (h.2.2.2.2 hmem (by decide) hs).2.2.1
    (by norm_num [stockM5, blankStock]) (by norm_num [stockM5, blankStock])
  have hconv : (⟨"M5", stockM5.stockInMeters.getD 0, none, some ((60 : ℚ) / 3),
      some (stockM5.stockInMeters.getD 0 / ((60 : ℚ) / 3))⟩ : StockSalesRow) =
      ⟨"M5", 10, none, some 20, some (1/2)⟩ := by
    norm_num [stockM5, blankStock]
  rw [hconv] at hlikely
  exact ⟨hlikely, by norm_num⟩

theorem salesByMaterial_dbExcess :
    salesByMaterial dbExcess "2025-04-12" = [(some "M1", 600)] := by
  norm_num +decide [salesByMaterial, groupSum, dedupFirst, dedupFirst.go,
    qsumBy, sqlGeD, dbExcess, rowSalesM1, blankInvoice, List.filter]

theorem excessRowOf_stockM1 :
    excessRowOf [(some "M1", 600)] stockM1 =
      ⟨"M1", none, 596, 596, 600, 100, some 6⟩ := by
  norm_num +decide [excessRowOf, velocityGet, toFixed1, toFixed2, stockM1,
    blankStock, List.find?, List.reverse]

/-- Counterexample for C6: material M1 holds 596 meters against a six-month
    velocity of 100 meters per month, so its coverage 5.96 is strictly below
    the default threshold 6, yet the report flags it as excess because the
    filter compares the coverage only after rounding it to one decimal. -/
theorem excess_rounding_counterexample :
    (getExcessStockReport none none dbExcess "2025-04-12").excessItems.map
      (fun r => r.material) = ["M1"] ∧
    (596 : ℚ) / ((600 : ℚ) / 6) < 6 := by
  constructor
  · have hrep : getExcessStockReport none none dbExcess "2025-04-12" =
        ⟨6, [⟨"M1", none, 596, 596, 600, 100, some 6⟩]⟩ := by
      simp only [getExcessStockReport, salesByMaterial_dbExcess]
      simp +decide only [dbExcess, List.map, excessRowOf_stockM1,
        List.filter, jsOrQ, jsOrInt, sortBy, insertSorted, List.foldr]
    rw [hrep]
    simp
  · norm_num

/-- C6 amended: in getExcessStockReport the monthly velocity is the trailing
    six-month quantity sold divided by 6 and the coverage is quantity on
    hand over that velocity, with the threshold defaulting to 6 when absent;
    an item is flagged excess iff its quantity is positive and either it had
    no sales in the window (infinite coverage) or its coverage rounded to
    one decimal is at or above the threshold, the rounding coming from the
    toFixed(1) rendering that the filter parses back. -/
theorem excess_report_amended :
    ∀ (thr : Option ℚ) (lim : Option Int) (db : DB) (cutoff : String)
      (item : StockRow),
      jsOrQ none 6 = 6 ∧
      (excessFlag (jsOrQ thr 6)
          (excessRowOf (salesByMaterial db cutoff) item) = true ↔
        0 < item.stockInMeters.getD 0 ∧
          (velocityGet (salesByMaterial db cutoff) item.material ≤ 0 ∨
           jsOrQ thr 6 ≤ toFixed1 (item.stockInMeters.getD 0 /
             (velocityGet (salesByMaterial db cutoff) item.material / 6)))) ∧
      (velocityGet (salesByMaterial db cutoff) item.material = 0 →
        0 < item.stockInMeters.getD 0 →
        excessFlag (jsOrQ thr 6)
          (excessRowOf (salesByMaterial db cutoff) item) = true) ∧
      (∀ r ∈ (getExcessStockReport thr lim db cutoff).excessItems,
        excessFlag (jsOrQ thr 6) r = true) ∧
      (excessRowOf (salesByMaterial db cutoff) item).soldLast6Months =
        velocityGet (salesByMaterial db cutoff) item.material ∧
      (excessRowOf (salesByMaterial db cutoff) item).monthlyVelocity =
        toFixed2 (velocityGet (salesByMaterial db cutoff) item.material / 6) := by
  intro thr lim db cutoff item
  refine ⟨rfl, excessFlag_excessRowOf_iff _ _ _, ?_, ?_, rfl, rfl⟩
  · intro hv hcs
    exact (excessFlag_excessRowOf_iff _ _ _).mpr ⟨hcs, Or.inl (le_of_eq hv)⟩
  · intro r hr
    exact (List.mem_filter.mp (mem_sortBy.mp (List.take_subset _ _ hr))).2

/-- Witness for C6 amended: the M1 fixture has positive stock and rounded
    coverage 6.0 at threshold 6, so the amended filter condition flags it. -/
theorem excess_report_amended_witness :
    excessFlag (jsOrQ none 6)
      (excessRowOf (salesByMaterial dbExcess "2025-04-12") stockM1) = true := by
  have h := excess_report_amended none none dbExcess "2025-04-12" stockM1
  refine (h.2.1).mpr ⟨by norm_num [stockM1, blankStock], Or.inr ?_⟩
  rw [salesByMaterial_dbExcess]
  norm_num +decide [velocityGet, toFixed1, jsOrQ, stockM1, blankStock,
    List.find?, List.reverse]

/-- Counterexample for C7: material M2 is present only in the stock record
    set and absent from the empty invoice set, yet getExcessStockReport
    returns a row for it, so the cross-analysis does not exclude materials
    present in one record set but absent from the other. -/
theorem cross_join_counterexample :
    dbStockOnly.invoices = [] ∧
    (getExcessStockReport none none dbStockOnly "2025-04-12").excessItems.map
      (fun r => r.material) = ["M2"] := by
  refine ⟨rfl, ?_⟩
  have hsales0 : salesByMaterial dbStockOnly "2025-04-12" = [] := rfl
  have hrow : excessRowOf [] stockM2 = ⟨"M2", none, 50, 50, 0, 0, none⟩ := by
    norm_num +decide [excessRowOf, velocityGet, toFixed2, stockM2, blankStock,
      List.find?, List.reverse]
  have hrep : getExcessStockReport none none dbStockOnly "2025-04-12" =
      ⟨6, [⟨"M2", none, 50, 50, 0, 0, none⟩]⟩ := by
    simp only [getExcessStockReport, hsales0]
    simp +decide only [dbStockOnly, List.map, hrow, List.filter, jsOrQ,
      jsOrInt, sortBy, insertSorted, List.foldr]
  rw [hrep]
  simp

/-- C7 amended: getStockSalesAnalysis produces rows only for materials
    present in both the sales aggregate and the stock set;
    getExcessStockReport produces rows only from stock items, excluding
    invoice-only materials, but a stock item with positive quantity and no
    sales aggregate entry is still flagged excess, so stock-only materials
    are included there rather than excluded. -/
theorem cross_join_amended :
    ∀ (typ : StockAnalysisType) (stocks : List StockRow)
      (sales : List (Option String × ℚ)) (r : StockSalesRow)
      (thr : Option ℚ) (lim : Option Int) (db : DB) (cutoff : String)
      (x : ExcessRow) (item : StockRow),
      (r ∈ classifyStockSales typ stocks sales →
        (∃ s ∈ stocks, s.material = r.material) ∧
        (∃ q, (some r.material, q) ∈ sales)) ∧
      (x ∈ (getExcessStockReport thr lim db cutoff).excessItems →
        ∃ s ∈ db.stocks, x = excessRowOf (salesByMaterial db cutoff) s) ∧
      (item ∈ db.stocks → 0 < item.stockInMeters.getD 0 →
        (∀ p ∈ salesByMaterial db cutoff, p.1 ≠ some item.material) →
        excessFlag (jsOrQ thr 6)
          (excessRowOf (salesByMaterial db cutoff) item) = true) := by
  intro typ stocks sales r thr lim db cutoff x item
  refine ⟨?_, ?_, ?_⟩
  · intro h
    obtain ⟨q', s', hmem', hm', hs', hcond⟩ := mem_classifyStockSales.mp h
    refine ⟨⟨s', ?_, ?_⟩, q', hmem'⟩
    · exact List.mem_reverse.mp (List.mem_of_find?_eq_some hs')
    · have := List.find?_some hs'
      simpa using this
  · intro hx
    have h1 := (List.mem_filter.mp (mem_sortBy.mp (List.take_subset _ _ hx))).1
    obtain ⟨s, hs, heq⟩ := List.mem_map.mp h1
    exact ⟨s, hs, heq.symm⟩
  · intro hitem hcs hnone
    exact (excessFlag_excessRowOf_iff _ _ _).mpr
      ⟨hcs, Or.inl (le_of_eq (velocityGet_eq_zero hnone))⟩

/-- Witness for C7 amended: the stock-only fixture M2, with positive
    quantity and no sales aggregate entry, still satisfies the excess
    filter. -/
theorem cross_join_amended_witness :
    excessFlag (jsOrQ (some 6) 6)
      (excessRowOf (salesByMaterial dbStockOnly "2025-04-12") stockM2) = true := by
  have h := cross_join_amended .likely_stock_out dbStockOnly.stocks
    (salesByMaterial dbStockOnly "2025-04-12")
    ⟨"M2", 0, none, none, none⟩ (some 6) none dbStockOnly "2025-04-12"
    (excessRowOf (salesByMaterial dbStockOnly "2025-04-12") stockM2) stockM2
  refine h.2.2 (by decide) (by norm_num [stockM2, blankStock]) ?_
  intro p hp
  have hsales0 : salesByMaterial dbStockOnly "2025-04-12" = [] := rfl
  rw [hsales0] at hp
  simp at hp

end StockBot
